import Mathlib

set_option linter.unusedVariables false

/-!
Verification of the PSL compiler (tokenizer, parser, code generator).

The program is a JavaScript file with three classes: `PSLTokenizer` turns the
source text into a token list, `PSLParser` turns the tokens into a `Program`
AST, and `PSLCompiler` turns the AST into one output document string while
assigning sequential element identifiers from a mutable counter.

The embedding below translates the relevant methods into Lean.  JavaScript
strings are modelled as `String`/`List Char` (the sources are ASCII, so the
UTF-16 code-unit view of JS and the code-point view of Lean agree on every
input considered here); the mutable scan cursor becomes an explicit remaining
list or position, and the mutable element-id counter becomes explicit state
passing.  JS library calls that Lean's `String` does not evaluate in the
kernel (trim, toLowerCase, split, includes, replace) are re-implemented on
`List Char` below, each with a comment naming the JS operation it models.
-/

/-- JS `\s` (whitespace class) restricted to the code points that occur in
practice; used by `skipWhitespace` and `String.trim`.  Other Unicode space
code points behave identically to unrecognized characters in the tokenizer
(both are dropped without emitting a token), so this set is observationally
faithful. -/
def jsIsSpace (c : Char) : Bool :=
  c = ' ' || c = '\t' || c = '\n' || c = '\r' || c = '\x0b' || c = '\x0c' || c = ' '

/-- JS regex `[a-zA-Z_]` (identifier start). -/
def isIdentStart (c : Char) : Bool :=
  ('a' ≤ c && c ≤ 'z') || ('A' ≤ c && c ≤ 'Z') || c = '_'

/-- JS regex `[a-zA-Z0-9_]` (identifier continuation). -/
def isIdentChar (c : Char) : Bool :=
  isIdentStart c || c.isDigit

/-- JS regex `[\d.]` (number body: digits and decimal points). -/
def isDigitDot (c : Char) : Bool :=
  c.isDigit || c = '.'

/-- JS regex `[a-zA-Z%]` (unit-suffix characters scanned after a number). -/
def isUnitChar (c : Char) : Bool :=
  c.isAlpha || c = '%'

/-- JS `String.prototype.toLowerCase` on the ASCII range (the only characters
the program lowercases are identifier/unit characters). -/
def jsLowerChar (c : Char) : Char :=
  if 'A' ≤ c && c ≤ 'Z' then Char.ofNat (c.toNat + 32) else c

/-- Lowercase a whole string, character by character. -/
def lowerStr (s : String) : String :=
  ⟨s.data.map jsLowerChar⟩

/-- Decimal digits of a natural number, most significant first.  The first
argument is fuel; `natToStr` always supplies enough. -/
def natToStrAux : Nat → Nat → List Char
  | 0, _ => []
  | fuel + 1, n =>
    if n < 10 then [Char.ofNat (48 + n)]
    else natToStrAux fuel (n / 10) ++ [Char.ofNat (48 + n % 10)]

/-- JS number-to-string coercion for the naturals used by the compiler
(element-id counter, scan position). -/
def natToStr (n : Nat) : String :=
  ⟨natToStrAux (n + 1) n⟩

/-- Whether `pat` is a prefix of `l`, as a Bool on character lists. -/
def startsWithL : List Char → List Char → Bool
  | _, [] => true
  | [], _ :: _ => false
  | c :: t, p :: q => c = p && startsWithL t q

/-- JS `String.prototype.includes` / regex search on character lists. -/
def containsSubL : List Char → List Char → Bool
  | [], pat => pat.isEmpty
  | c :: t, pat => startsWithL (c :: t) pat || containsSubL t pat

/-- JS `haystack.includes(needle)` on strings. -/
def strIncludes (s sub : String) : Bool :=
  containsSubL s.data sub.data

/-- JS `s.includes(c)` for a one-character needle. -/
def strHasChar (s : String) (c : Char) : Bool :=
  s.data.contains c

/-- JS `s.startsWith(p)`. -/
def strStartsWith (s p : String) : Bool :=
  startsWithL s.data p.data

/-- JS `String.prototype.replace` with a global single-character pattern
(`/x/g`): every occurrence of the character is replaced. -/
def replaceCharAll : List Char → Char → List Char → List Char
  | [], _, _ => []
  | a :: t, c, repl => (if a = c then repl else [a]) ++ replaceCharAll t c repl

/-- JS `String.prototype.replace` with a plain-string pattern: only the first
occurrence is replaced (an empty pattern matches at the start). -/
def replaceFirstL : List Char → List Char → List Char → List Char
  | [], pat, repl => if startsWithL [] pat then repl else []
  | c :: t, pat, repl =>
    if startsWithL (c :: t) pat then repl ++ (c :: t).drop pat.length
    else c :: replaceFirstL t pat repl

/-- JS `String.prototype.trim`: strip whitespace from both ends. -/
def trimL (l : List Char) : List Char :=
  ((l.dropWhile jsIsSpace).reverse.dropWhile jsIsSpace).reverse

/-- JS `s.trim()` on strings. -/
def jsTrim (s : String) : String :=
  ⟨trimL s.data⟩

/-- JS `Array.prototype.join(sep)`. -/
def joinSep (sep : String) : List String → String
  | [] => ""
  | [s] => s
  | s :: t :: r => s ++ sep ++ joinSep sep (t :: r)

/-- JS `Array.prototype.join('')` (plain concatenation of the pieces). -/
def strConcat (l : List String) : String :=
  joinSep "" l

/-- JS `String.prototype.split(c)` with a one-character separator (keeps
empty segments, `"" → [""]`). -/
def splitOnCharL (c : Char) : List Char → List (List Char)
  | [] => [[]]
  | a :: t =>
    match splitOnCharL c t with
    | [] => [[a]]
    | h :: r => if a = c then [] :: h :: r else (a :: h) :: r

/-- JS `s.split(c)` on strings. -/
def jsSplit (s : String) (c : Char) : List String :=
  (splitOnCharL c s.data).map (⟨·⟩)

/-- Dropping a prefix by a predicate never lengthens a list. -/
theorem len_dropWhile_le (p : Char → Bool) : ∀ l : List Char, (l.dropWhile p).length ≤ l.length
  | [] => by simp
  | c :: t => by
    rw [List.dropWhile_cons]
    split
    · have := len_dropWhile_le p t
      simp only [List.length_cons]
      omega
    · simp

-- --- PSLTokenizer ---

/-- A token `{type, value}` as built by `PSLTokenizer`. -/
structure Token where
  type : String
  value : String
  deriving DecidableEq, Repr

/-- The end-of-input marker pushed at the end of `tokenize`. -/
def eofToken : Token := ⟨"EOF", ""⟩

namespace PSLTokenizer

/-- The translation of `skipBlockComment` after its initial `this.pos += 2`:
the JS loop runs while `pos < input.length - 1` (at least two characters
remain), consuming `*/` and stopping, or else one character.  When the
comment is unterminated the loop exits with one character still unread. -/
def skipBlockCommentAux : List Char → List Char
  | a :: b :: t => if a = '*' && b = '/' then t else skipBlockCommentAux (b :: t)
  | l => l

/-- Escape handling inside `readString`: `\n`/`\t` decode, any other escaped
character passes through. -/
def escChar (e : Char) : Char :=
  if e = 'n' then '\n' else if e = 't' then '\t' else e

/-- The translation of `readString` after the opening quote is consumed:
returns the accumulated value characters and the rest of the input after the
closing quote.  A backslash at the very end of the input makes JS read
`input[pos]` as `undefined` and append the text `"undefined"`; modelled
verbatim. -/
def readStringAux (q : Char) : List Char → List Char × List Char
  | [] => ([], [])
  | c :: t =>
    if c = q then ([], t)
    else if c = '\\' then
      match t with
      | [] => ("undefined".data, [])
      | e :: t2 =>
        let r := readStringAux q t2
        (escChar e :: r.1, r.2)
    else
      let r := readStringAux q t
      (c :: r.1, r.2)

/-- The translation of `readIdentifier`: greedily read `[a-zA-Z0-9_]*`. -/
def readIdentifier (cs : List Char) : Token × List Char :=
  (⟨"IDENTIFIER", ⟨cs.takeWhile isIdentChar⟩⟩, cs.dropWhile isIdentChar)

/-- The fixed allow-list of unit suffixes in `readNumber`. -/
def validUnits : List String :=
  ["px", "vw", "vh", "%", "em", "rem", "vmin", "vmax", "cm", "mm", "in", "pt", "pc", "s", "ms"]

/-- The translation of `readNumber`: greedily read `[\d.]*`, then greedily
scan `[a-zA-Z%]*` as a candidate unit; if the lowercased unit is in the
allow-list (or is `%`) it is appended to the literal, otherwise the scan
position backtracks to where the unit began. -/
def readNumber (cs : List Char) : Token × List Char :=
  let ds := cs.takeWhile isDigitDot
  let rest1 := cs.dropWhile isDigitDot
  let us := rest1.takeWhile isUnitChar
  let rest2 := rest1.dropWhile isUnitChar
  let unit : String := ⟨us⟩
  if validUnits.contains (lowerStr unit) || unit = "%" then
    (⟨"NUMBER", (⟨ds⟩ : String) ++ unit⟩, rest2)
  else
    (⟨"NUMBER", ⟨ds⟩⟩, rest1)

/-- JS single-character symbol set `'{}()[];:,=.<>+-*/%?!'`. -/
def isSymbolChar (c : Char) : Bool :=
  "()[];:,=.<>+-*/%?!".data.contains c || c = Char.ofNat 123 || c = Char.ofNat 125

/-- One iteration of the `tokenize` loop after whitespace skipping, given the
current character and the rest of the input: the optional token pushed and
the remaining input.  The branches follow the JS `tokenize` body in source
order: line comment, block comment, the four two-character operators, then
the single-character dispatch (`#`, `@`, identifier, number, string, symbol,
drop). -/
def step (c : Char) (t : List Char) : Option Token × List Char :=
  match c, t with
  | '/', '/' :: t2 => (none, ('/' :: '/' :: t2).dropWhile (fun a => a ≠ '\n'))
  | '/', '*' :: t2 => (none, skipBlockCommentAux t2)
  | '=', '=' :: t2 => (some ⟨"OPERATOR", "=="⟩, t2)
  | '!', '=' :: t2 => (some ⟨"OPERATOR", "!="⟩, t2)
  | '>', '=' :: t2 => (some ⟨"OPERATOR", ">="⟩, t2)
  | '<', '=' :: t2 => (some ⟨"OPERATOR", "<="⟩, t2)
  | _, _ =>
    if c = '#' then (some ⟨"HASH", "#"⟩, t)
    else if c = '@' then (some ⟨"AT", "@"⟩, t)
    else if isIdentStart c then
      let r := readIdentifier (c :: t)
      (some r.1, r.2)
    else if c.isDigit then
      let r := readNumber (c :: t)
      (some r.1, r.2)
    else if c = '"' || c = '\'' then
      let r := readStringAux c t
      (some ⟨"STRING", ⟨r.1⟩⟩, r.2)
    else if isSymbolChar c then
      (some ⟨"SYMBOL", ⟨[c]⟩⟩, t)
    else (none, t)

/-- The `tokenize` while-loop: skip whitespace, stop at end of input, else
run one `step` and continue on the remaining input.  The first argument is
fuel; every `step` consumes at least one character, so `tokenize` below
always supplies enough (proved in `tokenizeGo_fuel`). -/
def tokenizeGo : Nat → List Char → List Token
  | 0, _ => []
  | fuel + 1, cs =>
    match cs.dropWhile jsIsSpace with
    | [] => []
    | c :: t =>
      match step c t with
      | (some tok, rest) => tok :: tokenizeGo fuel rest
      | (none, rest) => tokenizeGo fuel rest

/-- The translation of `PSLTokenizer.tokenize`: run the scan loop over the
whole input and push the end-of-input marker. -/
def tokenize (cs : List Char) : List Token :=
  tokenizeGo (cs.length + 1) cs ++ [eofToken]

/-- Tokenize a Lean string (the JS entry point takes the source text). -/
def tokenizeStr (s : String) : List Token :=
  tokenize s.data

end PSLTokenizer

-- --- AST: expressions ---

/-- An Expression node as the parser builds it (the JS `type` tag becomes the
constructor; `variable` is a Lean keyword, so that tag's constructor is named
`var`). -/
inductive Value where
  | string (value : String)
  | number (value : String)
  | boolean (value : Bool)
  | var (value : String)
  | array (elements : List Value)
  | object (properties : List (String × Value))
  | dotNotation (object property : String)
  | binaryExpression (operator : String) (left right : Value)
  | ternary (condition trueExpr falseExpr : Value)
  | null
  deriving Repr

/-- JS object-property assignment `o[k] = v` on an insertion-ordered
association list: an existing key keeps its position and gets the new value,
a new key is appended. -/
def jsObjSet : List (String × Value) → String → Value → List (String × Value)
  | [], k, v => [(k, v)]
  | (k0, v0) :: t, k, v => if k0 = k then (k0, v) :: t else (k0, v0) :: jsObjSet t k v

-- --- PSLParser ---

namespace PSLParser

/-- The parser's `peek()`: `this.tokens[this.pos] || {type: EOF, value: empty}`. -/
def peekT (tokens : List Token) (pos : Nat) : Token :=
  (tokens.get? pos).getD eofToken

/-- The parser's `isAtEnd()`. -/
def isAtEnd (tokens : List Token) (pos : Nat) : Bool :=
  (peekT tokens pos).type = "EOF"

/-- JS truthiness of `expect`'s optional `value` argument: `null` (the
default) and the empty string are falsy, every other string truthy. -/
def jsTruthyOptStr : Option String → Bool
  | none => false
  | some s => s ≠ ""

/-- The message carried by the error `expect` throws. -/
def expectMsg (ty : String) (value : Option String) (tok : Token) (pos : Nat) : String :=
  "Expected " ++ ty ++ (if jsTruthyOptStr value then " (" ++ value.getD "" ++ ")" else "") ++
    ", got " ++ tok.type ++ " (" ++ tok.value ++ ") at position " ++ natToStr pos

/-- The translation of `PSLParser.expect(type, value = null)`: throw when the
current token's type differs, or when `value` is truthy and the token's value
differs; otherwise consume and return the token. -/
def expect (tokens : List Token) (pos : Nat) (ty : String) (value : Option String) :
    Except String (Token × Nat) :=
  let token := peekT tokens pos
  if token.type != ty || (jsTruthyOptStr value && token.value != value.getD "") then
    .error (expectMsg ty value token pos)
  else
    .ok (token, pos + 1)

/-- The fixed CSS colour-name list of `PSLParser.isColorName`. -/
def colorNames : List String :=
  ["red", "blue", "green", "yellow", "orange", "purple", "pink", "brown",
   "black", "white", "gray", "grey", "cyan", "magenta", "lime", "navy",
   "teal", "aqua", "maroon", "olive", "silver", "gold", "violet", "indigo",
   "coral", "salmon", "khaki", "crimson", "azure", "beige", "tan", "ivory",
   "turquoise", "plum", "orchid", "lavender", "mint", "peach", "chocolate",
   "tomato", "wheat", "snow", "seashell", "linen", "honeydew", "aliceblue",
   "lightblue", "darkblue", "lightgreen", "darkgreen", "lightgray", "darkgray",
   "lightgrey", "darkgrey", "lightyellow", "darkyellow", "lightpink", "darkpink"]

/-- The translation of `PSLParser.isColorName`. -/
def isColorName (value : String) : Bool :=
  colorNames.contains (lowerStr value)

/-- The translation of `PSLParser.isPositionKeyword`. -/
def isPositionKeyword (value : String) : Bool :=
  ["top", "bottom", "left", "right", "center"].contains (lowerStr value)

mutual

/-- The translation of `parseExpression` (fuel-indexed: the JS parser can
loop forever on inputs where `parsePrimary` consumes nothing, e.g. inside an
array of symbols, so every recursive call burns one unit of fuel; the fuel
branch is never reached on the inputs considered in the theorems below). -/
def parseExpression : Nat → List Token → Nat → Except String (Value × Nat)
  | 0, _, _ => .error "FUEL"
  | fuel + 1, ts, pos => parseTernary fuel ts pos
  termination_by structural a0 a1 a2 => a0

/-- The translation of `parseTernary`. -/
def parseTernary : Nat → List Token → Nat → Except String (Value × Nat)
  | 0, _, _ => .error "FUEL"
  | fuel + 1, ts, pos => do
    let (expr, p1) ← parseLogical fuel ts pos
    if (peekT ts p1).value = "?" then do
      let (tE, p2) ← parseExpression fuel ts (p1 + 1)
      let (_, p3) ← expect ts p2 "SYMBOL" (some ":")
      let (fE, p4) ← parseExpression fuel ts p3
      .ok (.ternary expr tE fE, p4)
    else
      .ok (expr, p1)
  termination_by structural a0 a1 a2 => a0

/-- The translation of `parseLogical` (the `==`/`!=` while-loop). -/
def parseLogical : Nat → List Token → Nat → Except String (Value × Nat)
  | 0, _, _ => .error "FUEL"
  | fuel + 1, ts, pos => do
    let (left, p1) ← parseComparison fuel ts pos
    parseLogicalLoop fuel ts left p1
  termination_by structural a0 a1 a2 => a0

/-- One round of `parseLogical`'s while-loop. -/
def parseLogicalLoop : Nat → List Token → Value → Nat → Except String (Value × Nat)
  | 0, _, _, _ => .error "FUEL"
  | fuel + 1, ts, left, pos =>
    let tok := peekT ts pos
    if tok.type = "OPERATOR" && (tok.value = "==" || tok.value = "!=") then do
      let (right, p2) ← parseComparison fuel ts (pos + 1)
      parseLogicalLoop fuel ts (.binaryExpression tok.value left right) p2
    else
      .ok (left, pos)
  termination_by structural a0 a1 a2 a3 => a0

/-- The translation of `parseComparison` (the `< > <= >=` while-loop; the JS
loop guard first tests `peek().value` for truthiness, which the membership
test subsumes for these nonempty operator strings). -/
def parseComparison : Nat → List Token → Nat → Except String (Value × Nat)
  | 0, _, _ => .error "FUEL"
  | fuel + 1, ts, pos => do
    let (left, p1) ← parseAdditive fuel ts pos
    parseComparisonLoop fuel ts left p1
  termination_by structural a0 a1 a2 => a0

/-- One round of `parseComparison`'s while-loop. -/
def parseComparisonLoop : Nat → List Token → Value → Nat → Except String (Value × Nat)
  | 0, _, _, _ => .error "FUEL"
  | fuel + 1, ts, left, pos =>
    let tok := peekT ts pos
    if tok.value != "" && (tok.value = "<" || tok.value = ">" || tok.value = "<=" || tok.value = ">=") then do
      let (right, p2) ← parseAdditive fuel ts (pos + 1)
      parseComparisonLoop fuel ts (.binaryExpression tok.value left right) p2
    else
      .ok (left, pos)
  termination_by structural a0 a1 a2 a3 => a0

/-- The translation of `parseAdditive` (the `+ -` while-loop). -/
def parseAdditive : Nat → List Token → Nat → Except String (Value × Nat)
  | 0, _, _ => .error "FUEL"
  | fuel + 1, ts, pos => do
    let (left, p1) ← parseMultiplicative fuel ts pos
    parseAdditiveLoop fuel ts left p1
  termination_by structural a0 a1 a2 => a0

/-- One round of `parseAdditive`'s while-loop. -/
def parseAdditiveLoop : Nat → List Token → Value → Nat → Except String (Value × Nat)
  | 0, _, _, _ => .error "FUEL"
  | fuel + 1, ts, left, pos =>
    let tok := peekT ts pos
    if tok.value != "" && (tok.value = "+" || tok.value = "-") then do
      let (right, p2) ← parseMultiplicative fuel ts (pos + 1)
      parseAdditiveLoop fuel ts (.binaryExpression tok.value left right) p2
    else
      .ok (left, pos)
  termination_by structural a0 a1 a2 a3 => a0

/-- The translation of `parseMultiplicative` (the `* / %` while-loop). -/
def parseMultiplicative : Nat → List Token → Nat → Except String (Value × Nat)
  | 0, _, _ => .error "FUEL"
  | fuel + 1, ts, pos => do
    let (left, p1) ← parsePrimary fuel ts pos
    parseMultiplicativeLoop fuel ts left p1
  termination_by structural a0 a1 a2 => a0

/-- One round of `parseMultiplicative`'s while-loop. -/
def parseMultiplicativeLoop : Nat → List Token → Value → Nat → Except String (Value × Nat)
  | 0, _, _, _ => .error "FUEL"
  | fuel + 1, ts, left, pos =>
    let tok := peekT ts pos
    if tok.value != "" && (tok.value = "*" || tok.value = "/" || tok.value = "%") then do
      let (right, p2) ← parsePrimary fuel ts (pos + 1)
      parseMultiplicativeLoop fuel ts (.binaryExpression tok.value left right) p2
    else
      .ok (left, pos)
  termination_by structural a0 a1 a2 a3 => a0

/-- The translation of `parsePrimary`: string and number literals, arrays,
objects (only when `{` is followed by an identifier), `true`/`false` as
booleans, identifier-dot-identifier as a dotted reference, identifiers that
look like a hex colour / colour name / position keyword as string literals,
any other identifier as a variable reference, and otherwise a null literal
without consuming the token. -/
def parsePrimary : Nat → List Token → Nat → Except String (Value × Nat)
  | 0, _, _ => .error "FUEL"
  | fuel + 1, ts, pos =>
    let token := peekT ts pos
    if token.type = "STRING" then .ok (.string token.value, pos + 1)
    else if token.type = "NUMBER" then .ok (.number token.value, pos + 1)
    else if token.value = "[" then parseArray fuel ts pos
    else if token.value = "\x7b" && (peekT ts (pos + 1)).type = "IDENTIFIER" then parseObject fuel ts pos
    else if token.type = "IDENTIFIER" then
      let value := token.value
      if value = "true" || value = "false" then .ok (.boolean (value = "true"), pos + 1)
      else if (peekT ts (pos + 1)).value = "." then do
        let (ptok, p2) ← expect ts (pos + 2) "IDENTIFIER" none
        .ok (.dotNotation value ptok.value, p2)
      else if strStartsWith value "#" || isColorName value || isPositionKeyword value then
        .ok (.string value, pos + 1)
      else
        .ok (.var value, pos + 1)
    else
      .ok (.null, pos)
  termination_by structural a0 a1 a2 => a0

/-- The translation of `parseArray` (opening bracket plus element loop). -/
def parseArray : Nat → List Token → Nat → Except String (Value × Nat)
  | 0, _, _ => .error "FUEL"
  | fuel + 1, ts, pos => do
    let (_, p1) ← expect ts pos "SYMBOL" (some "[")
    parseArrayLoop fuel ts [] p1
  termination_by structural a0 a1 a2 => a0

/-- One round of `parseArray`'s element loop. -/
def parseArrayLoop : Nat → List Token → List Value → Nat → Except String (Value × Nat)
  | 0, _, _, _ => .error "FUEL"
  | fuel + 1, ts, acc, pos =>
    if (peekT ts pos).value != "]" && !(isAtEnd ts pos) then do
      let (e, p1) ← parseExpression fuel ts pos
      let p2 := if (peekT ts p1).value = "," then p1 + 1 else p1
      parseArrayLoop fuel ts (acc ++ [e]) p2
    else do
      let (_, p) ← expect ts pos "SYMBOL" (some "]")
      .ok (.array acc, p)
  termination_by structural a0 a1 a2 a3 => a0

/-- The translation of `parseObject` (opening brace plus property loop). -/
def parseObject : Nat → List Token → Nat → Except String (Value × Nat)
  | 0, _, _ => .error "FUEL"
  | fuel + 1, ts, pos => do
    let (_, p1) ← expect ts pos "SYMBOL" (some "\x7b")
    parseObjectLoop fuel ts [] p1
  termination_by structural a0 a1 a2 => a0

/-- One round of `parseObject`'s property loop. -/
def parseObjectLoop : Nat → List Token → List (String × Value) → Nat → Except String (Value × Nat)
  | 0, _, _, _ => .error "FUEL"
  | fuel + 1, ts, props, pos =>
    if (peekT ts pos).value != "\x7d" && !(isAtEnd ts pos) then do
      let (ktok, p1) ← expect ts pos "IDENTIFIER" none
      let (_, p2) ← expect ts p1 "SYMBOL" (some ":")
      let (v, p3) ← parseExpression fuel ts p2
      let p4 := if (peekT ts p3).value = "," then p3 + 1 else p3
      parseObjectLoop fuel ts (jsObjSet props ktok.value v) p4
    else do
      let (_, p) ← expect ts pos "SYMBOL" (some "\x7d")
      .ok (.object props, p)
  termination_by structural a0 a1 a2 a3 => a0

end

end PSLParser

-- --- AST: actions, handlers, elements, pages, program ---

/-- An Action node (handler/watcher/interval/key-handler bodies).  The JS
`type` tags are `assignment`, `functionCall`, `if` (constructor `ifA`, since
`if` is reserved) and `wait`; a missing `elseBody` is `none`.  (Named
`PslAction` because Mathlib already declares `Action`.) -/
inductive PslAction where
  | assignment (key : String) (value : Value)
  | functionCall (name : String) (args : List Value)
  | ifA (condition : Value) (body : List PslAction) (elseBody : Option (List PslAction))
  | wait (duration : Value) (body : List PslAction)
  deriving Repr

/-- An event handler `{event, actions}` attached to an element. -/
structure Handler where
  event : String
  actions : List PslAction
  deriving Repr

mutual

/-- An element-tree node as `parseTopLevelElement` returns it: an Element
`{name, props, children, handlers}` or a ForLoop `{varName, collection,
elements}`. -/
inductive ENode where
  | elem : String → List (String × Value) → List Child → List Handler → ENode
  | forLoop : String → Value → List ENode → ENode

/-- A child inside an element body: a nested element/for-loop, or an `if`
node `{condition, children, elseChildren}` (the parser guarantees the branch
lists hold only elements and for-loops; `elseChildren` is null when no else
block was written). -/
inductive Child where
  | node : ENode → Child
  | ifC : Value → List ENode → Option (List ENode) → Child

end

/-- An entry of a page's element list: an element tree or a SwipeHandler
`{direction, actions}`. -/
inductive PageItem where
  | node : ENode → PageItem
  | swipe : String → List PslAction → PageItem

/-- A page `{elements, padding, bg}`. -/
structure Page where
  elements : List PageItem
  padding : Option Value
  bg : Option Value

/-- A statement of a function body or the top level (`parseBlock`). -/
inductive Stmt where
  | assignment (varName : String) (value : Value)
  | functionCall (name : String) (args : List Value)
  | ifS (condition : Value) (body : List Stmt) (elseBody : Option (List Stmt))
  | forS (varName : String) (collection : Value) (body : List Stmt)

/-- A function declaration `{params, body}`. -/
structure Func where
  params : List String
  body : List Stmt

/-- A watcher `{variable, actions}` (the field `variable` is a Lean keyword,
so it is named `watched` here). -/
structure Watcher where
  watched : Value
  actions : List PslAction

/-- An interval `{duration, actions}`. -/
structure PslInterval where
  duration : Value
  actions : List PslAction

/-- A key handler `{key, actions}`. -/
structure KeyHandler where
  key : Value
  actions : List PslAction

/-- The Program AST (`PSLParser.parse`'s result).  The JS object maps become
insertion-ordered association lists, matching `Object.entries` /
`Object.keys` iteration order; their keys are unique because JS object
assignment overwrites. -/
structure Program where
  metadata : List (String × Value) := []
  pages : List (String × Page) := []
  functions : List (String × Func) := []
  globalVariables : List (String × Value) := []
  statements : List Stmt := []
  keyHandlers : List KeyHandler := []
  mediaQueries : List (String × List (String × Value)) := []
  watchers : List Watcher := []
  intervals : List PslInterval := []
  imports : List Value := []

-- --- PSLCompiler: expression serialization ---

namespace PSLCompiler

mutual

/-- The translation of `PSLCompiler.valueToString`: the display/string form
of an expression node (dotted references, binary expressions, ternaries and
null all fall through to the final `return`, the empty string). -/
def valueToString : Value → String
  | .string v => v
  | .number v => v
  | .boolean b => if b then "true" else "false"
  | .var v => v
  | .array es => "[" ++ joinSep ", " (valueToStringList es) ++ "]"
  | .object props => "\x7b" ++ joinSep ", " (valueToStringProps props) ++ "\x7d"
  | .dotNotation _ _ => ""
  | .binaryExpression _ _ _ => ""
  | .ternary _ _ _ => ""
  | .null => ""

/-- `value.elements.map(e => this.valueToString(e))`. -/
def valueToStringList : List Value → List String
  | [] => []
  | v :: t => valueToString v :: valueToStringList t

/-- `Object.entries(value.properties).map(([k, v]) => ...)`. -/
def valueToStringProps : List (String × Value) → List String
  | [] => []
  | (k, v) :: t => (k ++ ": " ++ valueToString v) :: valueToStringProps t

end

mutual

/-- The translation of `PSLCompiler.valueToJSString`: the JavaScript
expression emitted for an expression node.  A string literal is wrapped in
double quotes with embedded double quotes backslash-escaped (`/"/g`); no
other character is escaped.  `==` is strengthened to `===`. -/
def valueToJSString : Value → String
  | .string v => "\"" ++ (⟨replaceCharAll v.data '"' ['\\', '"']⟩ : String) ++ "\""
  | .number v => v
  | .boolean b => if b then "true" else "false"
  | .var v => "window.psl_vars." ++ v
  | .array es => "[" ++ joinSep ", " (valueToJSStringList es) ++ "]"
  | .object props => "\x7b" ++ joinSep ", " (valueToJSStringProps props) ++ "\x7d"
  | .dotNotation o p =>
    if p = "text" then
      "(window.psl_elements." ++ o ++ " ? window.psl_elements." ++ o ++ ".textContent : '')"
    else if p = "value" then
      "(window.psl_elements." ++ o ++ " ? window.psl_elements." ++ o ++ ".value : '')"
    else if p = "src" then
      "(window.psl_elements." ++ o ++ " ? window.psl_elements." ++ o ++ ".src : '')"
    else if p = "bg" then
      "(window.psl_elements." ++ o ++ " ? window.psl_elements." ++ o ++ ".style.backgroundColor : '')"
    else if p = "color" then
      "(window.psl_elements." ++ o ++ " ? window.psl_elements." ++ o ++ ".style.color : '')"
    else if p = "size" then
      "(window.psl_elements." ++ o ++ " ? parseInt(window.psl_elements." ++ o ++ ".style.fontSize) : 0)"
    else if p = "width" then
      "(window.psl_elements." ++ o ++ " ? parseInt(window.psl_elements." ++ o ++ ".style.width) : 0)"
    else if p = "height" then
      "(window.psl_elements." ++ o ++ " ? parseInt(window.psl_elements." ++ o ++ ".style.height) : 0)"
    else
      "(window.psl_elements." ++ o ++ " ? window.psl_elements." ++ o ++ ".getAttribute('data-" ++ p ++ "') : '')"
  | .binaryExpression op l r =>
    "(" ++ valueToJSString l ++ " " ++ (if op = "==" then "===" else op) ++ " " ++ valueToJSString r ++ ")"
  | .ternary c t f =>
    "(" ++ valueToJSString c ++ " ? " ++ valueToJSString t ++ " : " ++ valueToJSString f ++ ")"
  | .null => "null"

/-- `value.elements.map(e => this.valueToJSString(e))`. -/
def valueToJSStringList : List Value → List String
  | [] => []
  | v :: t => valueToJSString v :: valueToJSStringList t

/-- `Object.entries(value.properties).map(([k, v]) => ...)`. -/
def valueToJSStringProps : List (String × Value) → List String
  | [] => []
  | (k, v) :: t => (k ++ ": " ++ valueToJSString v) :: valueToJSStringProps t

end


/-- The code `actionToJS` emits for a dotted assignment whose target name is a declared page and whose property is `hide`. -/
def pageHideJS (elemName : String) : String :=
    "\n              const pageEl = document.querySelector('[data-page=\"" ++ elemName
      ++ "\"]');\n              if (pageEl) \x7b\n                pageEl.classList.remove('active');\n                pageEl.style.display = 'none';\n              \x7d\n            "

/-- The code `actionToJS` emits for a dotted assignment whose target name is a declared page and whose property is `show`. -/
def pageShowJS (elemName : String) : String :=
    "\n              document.querySelectorAll('[data-page]').forEach(p => p.classList.remove('active'));\n              const pageEl = document.querySelector('[data-page=\""
      ++ elemName
      ++ "\"]');\n              if (pageEl) \x7b\n                pageEl.classList.add('active');\n                pageEl.style.display = 'block';\n              \x7d\n            "

/-- The code `actionToJS` emits for a dotted assignment to a registered element: resolve the node, apply the property-specific mutation, then fire the trigger for the element name. -/
def dottedAssignJS (elemName prop valueJS : String) : String :=
    "\n          if (window.psl_elements && window.psl_elements['" ++ elemName
      ++ "']) \x7b\n            const el = window.psl_elements['" ++ elemName
      ++ "'];\n            const propValue = " ++ valueJS ++ ";\n            if ('" ++ prop
      ++ "' === 'text') \x7b\n              el.textContent = propValue;\n            \x7d else if ('"
      ++ prop
      ++ "' === 'value') \x7b\n              el.value = propValue;\n            \x7d else if ('"
      ++ prop
      ++ "' === 'src') \x7b\n              el.src = propValue;\n            \x7d else if ('"
      ++ prop
      ++ "' === 'bg') \x7b\n              el.style.backgroundColor = propValue;\n            \x7d else if ('"
      ++ prop
      ++ "' === 'color') \x7b\n              el.style.color = propValue;\n            \x7d else if ('"
      ++ prop
      ++ "' === 'size') \x7b\n              el.style.fontSize = propValue + 'px';\n            \x7d else if ('"
      ++ prop
      ++ "' === 'hide') \x7b\n              el.style.display = (propValue === true || propValue === 1 || propValue === '1') ? 'none' : 'block';\n            \x7d else if ('"
      ++ prop
      ++ "' === 'show') \x7b\n              el.style.display = (propValue === false || propValue === 0 || propValue === '0') ? 'none' : 'block';\n            \x7d else if ('"
      ++ prop
      ++ "' === 'radius') \x7b\n              el.style.borderRadius = propValue + 'px';\n            \x7d else if ('"
      ++ prop
      ++ "' === 'border-size') \x7b\n              el.style.borderWidth = propValue + 'px';\n            \x7d else if ('"
      ++ prop
      ++ "' === 'border-color') \x7b\n              el.style.borderColor = propValue;\n            \x7d else if ('"
      ++ prop
      ++ "' === 'padding') \x7b\n              el.style.padding = propValue + 'px';\n            \x7d else if ('"
      ++ prop
      ++ "' === 'margin') \x7b\n              el.style.margin = propValue + 'px';\n            \x7d else if ('"
      ++ prop
      ++ "' === 'width') \x7b\n              el.style.width = propValue + 'px';\n            \x7d else if ('"
      ++ prop
      ++ "' === 'height') \x7b\n              el.style.height = propValue + 'px';\n            \x7d else \x7b\n              el.setAttribute('data-' + '"
      ++ prop ++ "', propValue);\n            \x7d\n            window.psl_triggerWatchers('"
      ++ elemName ++ "');\n          \x7d\n        "

/-- The code `actionToJS` emits for a bare (non-dotted) assignment: first the write into the global variable store `window.psl_vars`, then the call firing the trigger for that name. -/
def bareAssignJS (key valueJS : String) : String :=
    "\n          window.psl_vars." ++ key ++ " = " ++ valueJS
      ++ ";\n          window.psl_triggerWatchers('" ++ key ++ "');\n        "

mutual

/-- The translation of `PSLCompiler.actionToJS`.  `pageNames` stands for the
keys of `this.ast.pages` (the JS truthiness test `this.ast.pages[elemName]`
is key membership); the `elementId` argument is carried but never used, as
in the source. -/
def actionToJS (pageNames : List String) : PslAction → String → String
  | .assignment key value, _elementId =>
    let valueJS := valueToJSString value
    if strHasChar key '.' then
      let parts := jsSplit key '.'
      let elemName := parts.headD ""
      let prop := (parts.get? 1).getD ""
      let isPage := pageNames.contains elemName
      if isPage && prop = "hide" then pageHideJS elemName
      else if isPage && prop = "show" then pageShowJS elemName
      else dottedAssignJS elemName prop valueJS
    else
      bareAssignJS key valueJS
  | .functionCall name args, _ =>
    let argsJS := joinSep ", " (valueToJSStringList args)
    if name = "log" then "console.log(" ++ argsJS ++ ");\n"
    else if name = "alert" then "alert(" ++ argsJS ++ ");\n"
    else if name = "notify" then "notify(" ++ argsJS ++ ");\n"
    else if name = "save" then "save(" ++ argsJS ++ ");\n"
    else if name = "load" then "load(" ++ argsJS ++ ");\n"
    else "window." ++ name ++ "(" ++ argsJS ++ ");\n"
  | .ifA condition body elseBody, elementId =>
    let cond := valueToJSString condition
    let ifBody := strConcat (actionsToJS pageNames body elementId)
    let js := "if (" ++ cond ++ ") \x7b " ++ ifBody ++ " \x7d"
    (match elseBody with
      | some eb =>
        if eb.length > 0 then
          js ++ " else \x7b " ++ strConcat (actionsToJS pageNames eb elementId) ++ " \x7d"
        else js
      | none => js) ++ "\n"
  | .wait duration body, elementId =>
    "await new Promise(resolve => setTimeout(resolve, " ++ valueToJSString duration ++ ")); " ++
      strConcat (actionsToJS pageNames body elementId)

/-- `actions.map(a => this.actionToJS(a, elementId))`. -/
def actionsToJS (pageNames : List String) : List PslAction → String → List String
  | [], _ => []
  | a :: t, elementId => actionToJS pageNames a elementId :: actionsToJS pageNames t elementId

end

mutual

/-- The translation of `PSLCompiler.statementToJS`. -/
def statementToJS : Stmt → String
  | .assignment varName value =>
    if strHasChar varName '.' then
      "// Element property assignment in statement context ignored\n"
    else
      "window.psl_vars." ++ varName ++ " = " ++ valueToJSString value ++ ";\n"
  | .functionCall name args =>
    let argsJS := joinSep ", " (valueToJSStringList args)
    if name = "log" then "console.log(" ++ argsJS ++ ");\n"
    else if name = "alert" then "alert(" ++ argsJS ++ ");\n"
    else "window." ++ name ++ "(" ++ argsJS ++ ");\n"
  | .ifS condition body elseBody =>
    let cond := valueToJSString condition
    let js := "if (" ++ cond ++ ") \x7b " ++ strConcat (stmtsToJS body) ++ " \x7d"
    (match elseBody with
      | some eb =>
        if eb.length > 0 then
          js ++ " else \x7b " ++ strConcat (stmtsToJS eb) ++ " \x7d"
        else js
      | none => js) ++ "\n"
  | .forS varName collection body =>
    "for (let " ++ varName ++ " of " ++ valueToJSString collection ++ ") \x7b " ++
      strConcat (stmtsToJS body) ++ " \x7d\n"

/-- `stmt.body.map(s => this.statementToJS(s))`. -/
def stmtsToJS : List Stmt → List String
  | [] => []
  | s :: t => statementToJS s :: stmtsToJS t

end


/-- JS truthiness of the `.value` FIELD of an expression node (used by
`generateElement` in `!value.value`): string/number/variable nodes are falsy
when their stored string is empty, a boolean node when it is `false`; the
other node shapes have no `value` field, so the access yields `undefined`,
which is falsy (hence `!value.value` is true for them). -/
def jsValueFieldFalsy : Value → Bool
  | .string s => s = ""
  | .number s => s = ""
  | .boolean b => !b
  | .var s => s = ""
  | .null => true
  | .array _ => true
  | .object _ => true
  | .dotNotation _ _ => true
  | .binaryExpression _ _ _ => true
  | .ternary _ _ _ => true

/-- The translation of `PSLCompiler.getMetadata`: look the key up in the
metadata map; a string or variable node yields its stored string, anything
else (or a missing key) yields null. -/
def getMetadata (metadata : List (String × Value)) (key : String) : Option String :=
  match metadata.lookup key with
  | some (.string s) => some s
  | some (.var s) => some s
  | _ => none

/-- The translation of `PSLCompiler.getElementTag`: the fixed name-to-tag
table, defaulting to `div`. -/
def getElementTag (name : String) : String :=
  if name = "title" then "h1"
  else if name = "text" then "p"
  else if name = "button" then "button"
  else if name = "input" then "input"
  else if name = "image" then "img"
  else if name = "container" then "div"
  else if name = "box" then "div"
  else "div"

/-- The translation of `PSLCompiler.getMediaQuery`. -/
def getMediaQuery (ty : String) : String :=
  if ty = "mobile" then "@media (max-width: 768px)"
  else if ty = "tablet" then "@media (min-width: 769px) and (max-width: 1024px)"
  else if ty = "desktop" then "@media (min-width: 1025px)"
  else if ty = "portrait" then "@media (orientation: portrait)"
  else if ty = "landscape" then "@media (orientation: landscape)"
  else "@media (max-width: 768px)"

/-- The translation of `PSLCompiler.propertyToCSS`. -/
def propertyToCSS (property value : String) : String :=
  if property = "size" then "font-size: " ++ value
  else if property = "bg" then "background-color: " ++ value
  else if property = "color" then "color: " ++ value
  else property ++ ": " ++ value

/-- The sizing keys to which `getStyleValue` applies unit defaulting. -/
def sizingKeys : List String :=
  ["width", "height", "size", "border-size", "padding", "margin", "gap", "radius"]

/-- The thirteen unit alternatives of `getStyleValue`'s suffix regex
`(px|vw|vh|%|em|rem|vmin|vmax|cm|mm|in|pt|pc)` (note: without `s`/`ms`). -/
def cssUnits13 : List String :=
  ["px", "vw", "vh", "%", "em", "rem", "vmin", "vmax", "cm", "mm", "in", "pt", "pc"]

/-- Case-insensitive character match (the regex `/i` flag) of a source
character against a pattern character, on the ASCII range. -/
def charCI (a b : Char) : Bool :=
  jsLowerChar a = jsLowerChar b

/-- Case-insensitive prefix test: does `l` start with the pattern `pat`? -/
def ciPrefixL : List Char → List Char → Bool
  | [], _ => true
  | _ :: _, [] => false
  | p :: ps, c :: cs => charCI c p && ciPrefixL ps cs

/-- Whether `l` matches the regex fragment `\d+\.?\d*` in full: some
nonempty digit prefix, then optionally a dot and trailing digits.  (This is
also exactly the anchored test `/^\d+\.?\d*$/` of `getStyleValue`.) -/
def numFullMatch (l : List Char) : Bool :=
  (List.range (l.length + 1)).any fun k =>
    decide (0 < k) && (l.take k).all Char.isDigit &&
      (let r := l.drop k
       r.isEmpty || (r.head? == some '.' && r.tail.all Char.isDigit))

/-- Whether the regex `\d+\.?\d*(px|...|pc)\s*$/i` matches starting exactly
at the head of `t` and reaching the end of input: some split of `t` into a
`\d+\.?\d*` part, one of the thirteen unit alternatives (case-insensitive),
and trailing whitespace. -/
def unitSuffixAtHead (t : List Char) : Bool :=
  cssUnits13.any fun u =>
    (List.range (t.length + 1)).any fun i =>
      numFullMatch (t.take i) && ciPrefixL u.data (t.drop i) &&
        (t.drop (i + u.length)).all jsIsSpace

/-- The unanchored search `regex.test(s)` for
`/\d+\.?\d*(px|vw|vh|%|em|rem|vmin|vmax|cm|mm|in|pt|pc)\s*$/i`: the pattern
matches starting at some position of the string. -/
def cssUnitRegexTest (l : List Char) : Bool :=
  (List.range (l.length + 1)).any fun j => unitSuffixAtHead (l.drop j)

/-- Whether JS `parseFloat` returns NaN on the (already trimmed) string: no
leading floating-point numeral.  `parseFloat` skips leading whitespace, an
optional sign, then needs a digit, a dot followed by a digit, or
`Infinity`. -/
def jsParseFloatIsNaN (l : List Char) : Bool :=
  let l1 := l.dropWhile jsIsSpace
  let l2 := match l1 with
    | c :: r => if c = '+' || c = '-' then r else c :: r
    | [] => l1
  match l2 with
  | [] => true
  | c :: r =>
    if c.isDigit then false
    else if c = '.' then
      match r with
      | d :: _ => !d.isDigit
      | [] => true
    else !(startsWithL (c :: r) "Infinity".data)

/-- The translation of `PSLCompiler.getStyleValue`: for the sizing keys, a
trimmed value already matching the unit-suffix regex or containing `%`
passes through; otherwise a value that parses as a float and matches
`^\d+\.?\d*$` in full gets `px` appended; anything else passes through;
non-sizing keys pass the value through untouched. -/
def getStyleValue (key strValue : String) : String :=
  if sizingKeys.contains key then
    let trimmed := jsTrim strValue
    if cssUnitRegexTest trimmed.data || strHasChar trimmed '%' then trimmed
    else if !(jsParseFloatIsNaN trimmed.data) && numFullMatch trimmed.data then
      trimmed ++ "px"
    else trimmed
  else strValue

/-- The translation of `interpolateTemplateString`'s regex replacement
`/\x7b([^\x7d]+)\x7d/g`: each brace-delimited nonempty segment becomes a
reactive placeholder span bound to the trimmed variable name; an opening
brace with no later closing brace (or with nothing between) stays literal. -/
def interpolateAux : List Char → List Char
  | [] => []
  | c :: t =>
    if c = '{' then
      let between := t.takeWhile (fun a => a ≠ '}')
      match hrest : t.dropWhile (fun a => a ≠ '}') with
      | _ :: r2 =>
        if between.isEmpty then c :: interpolateAux t
        else
          ("<span class=\"psl-var\" data-var=\"".data ++ (jsTrim ⟨between⟩).data ++
            "\"></span>".data) ++ interpolateAux r2
      | [] => c :: interpolateAux t
    else
      c :: interpolateAux t
termination_by l => l.length
decreasing_by
  all_goals simp only [List.length_cons]
  all_goals try omega
  have h1 := len_dropWhile_le (fun a => a ≠ '}') t
  rw [hrest] at h1
  simp only [List.length_cons] at h1
  omega

/-- The translation of `PSLCompiler.interpolateTemplateString`. -/
def interpolateTemplateString (text : String) : String :=
  ⟨interpolateAux text.data⟩

/-- The `pagePadding.split(' ')` destructuring of `generateElement` into
(top, right, bottom, left): one part fills all four sides, two parts give
vertical/horizontal, three give top/horizontal/bottom, four give all sides;
with five or more parts the JS variables stay `undefined` (rendered as the
text `undefined` when interpolated). -/
def splitPaddingParts (pagePadding : String) : String × String × String × String :=
  match jsSplit pagePadding ' ' with
  | [a] => (a, a, a, a)
  | [a, b] => (a, b, a, b)
  | [a, b, c] => (a, b, c, b)
  | [a, b, c, d] => (a, b, c, d)
  | _ => ("undefined", "undefined", "undefined", "undefined")

/-- The mutable locals of `generateElement`'s first pass over the props
(base/fixed/center/left/right flags). -/
structure ElemFlags where
  hasBasePositioning : Bool := false
  basePosition : Option String := none
  isFixed : Bool := false
  horizontalAlign : Option String := none
  needsWrapper : Bool := false
  justifyContent : Option String := none
  alignItems : Option String := none

/-- One iteration of `generateElement`'s first props loop. -/
def flagsStep (f : ElemFlags) (kv : String × Value) : ElemFlags :=
  let strValue := valueToString kv.2
  if kv.1 = "base" then
    { f with hasBasePositioning := true, basePosition := some strValue }
  else if kv.1 = "fixed" then
    { f with isFixed := strValue = "true" || strValue = "1" || jsValueFieldFalsy kv.2 }
  else if kv.1 = "center" then
    if strValue = "true" || strValue = "1" || jsValueFieldFalsy kv.2 then
      if !f.hasBasePositioning then
        { f with horizontalAlign := some "center", needsWrapper := true,
                 justifyContent := some "center", alignItems := some "center" }
      else
        { f with horizontalAlign := some "center" }
    else f
  else if kv.1 = "left" then
    if !f.hasBasePositioning then
      { f with horizontalAlign := some "left", needsWrapper := true,
               justifyContent := some "flex-start" }
    else
      { f with horizontalAlign := some "left" }
  else if kv.1 = "right" then
    if !f.hasBasePositioning then
      { f with horizontalAlign := some "right", needsWrapper := true,
               justifyContent := some "flex-end" }
    else
      { f with horizontalAlign := some "right" }
  else f

/-- The whole first props pass. -/
def elemFlags (props : List (String × Value)) : ElemFlags :=
  props.foldl flagsStep {}

/-- The mutable locals of `generateElement`'s second props pass: the extra
attribute text appended to the opening tag, the inline style declarations,
the `var` registration name, and whether drag data was set up. -/
structure PropsOut where
  attrs : String := ""
  styles : List String := []
  elementVarName : Option String := none
  dragData : Bool := false

/-- One iteration of `generateElement`'s second props pass (the long
key-dispatch if-chain, in source order). -/
def propsStep (props : List (String × Value)) (flags : ElemFlags)
    (topPadding rightPadding bottomPadding leftPadding : String)
    (st : PropsOut) (kv : String × Value) : PropsOut :=
  let key := kv.1
  let strValue := valueToString kv.2
  if key = "text" then st
  else if key = "src" then
    { st with attrs := st.attrs ++ " src=\"" ++ strValue ++ "\"" ++
        (if (props.lookup "lazy").isSome then " loading=\"lazy\"" else "") }
  else if key = "placeholder" then
    { st with attrs := st.attrs ++ " placeholder=\"" ++ strValue ++ "\"" }
  else if key = "var" then
    { st with elementVarName := some strValue }
  else if key = "draggable" then
    if strValue = "true" || strValue = "1" then
      { st with attrs := st.attrs ++ " draggable=\"true\"", dragData := true }
    else st
  else if key = "lazy" then st
  else if key = "animate" then
    let animValue := jsSplit strValue ' '
    let animName := animValue.headD ""
    let animDuration := match animValue.get? 1 with
      | some d => if d = "" then "1s" else d
      | none => "1s"
    { st with styles := st.styles ++ ["animation: " ++ animName ++ " " ++ animDuration] }
  else if key = "layout" then
    if strValue = "flex" then { st with styles := st.styles ++ ["display: flex"] }
    else if strValue = "grid" then { st with styles := st.styles ++ ["display: grid"] }
    else st
  else if key = "direction" then
    if strValue = "row" then { st with styles := st.styles ++ ["flex-direction: row"] }
    else if strValue = "column" then { st with styles := st.styles ++ ["flex-direction: column"] }
    else st
  else if key = "wrap" then
    if strValue = "true" || strValue = "1" then
      { st with styles := st.styles ++ ["flex-wrap: wrap"] }
    else st
  else if key = "align" then
    if strValue = "center" then { st with styles := st.styles ++ ["align-items: center"] }
    else if strValue = "start" then { st with styles := st.styles ++ ["align-items: flex-start"] }
    else if strValue = "end" then { st with styles := st.styles ++ ["align-items: flex-end"] }
    else st
  else if key = "justify" then
    if strValue = "center" then { st with styles := st.styles ++ ["justify-content: center"] }
    else if strValue = "start" then { st with styles := st.styles ++ ["justify-content: flex-start"] }
    else if strValue = "end" then { st with styles := st.styles ++ ["justify-content: flex-end"] }
    else if strValue = "between" then { st with styles := st.styles ++ ["justify-content: space-between"] }
    else if strValue = "around" then { st with styles := st.styles ++ ["justify-content: space-around"] }
    else st
  else if key = "shadow" then
    { st with styles := st.styles ++ ["box-shadow: " ++ strValue] }
  else if key = "blur" then
    { st with styles := st.styles ++ ["filter: blur(" ++ getStyleValue "blur" strValue ++ ")"] }
  else if key = "opacity" then
    { st with styles := st.styles ++ ["opacity: " ++ strValue] }
  else if key = "base" then
    let positionType := if flags.isFixed then "fixed" else "absolute"
    let s1 := st.styles ++ ["position: " ++ positionType]
    let s2 :=
      if strValue = "bottom" then
        s1 ++ ["bottom: " ++ bottomPadding] ++
          (if flags.horizontalAlign.isNone then
            ["left: " ++ leftPadding, "right: " ++ rightPadding] else [])
      else if strValue = "top" then
        s1 ++ ["top: " ++ topPadding] ++
          (if flags.horizontalAlign.isNone then
            ["left: " ++ leftPadding, "right: " ++ rightPadding] else [])
      else if strValue = "left" then
        s1 ++ ["left: " ++ leftPadding, "top: " ++ topPadding, "bottom: " ++ bottomPadding]
      else if strValue = "right" then
        s1 ++ ["right: " ++ rightPadding, "top: " ++ topPadding, "bottom: " ++ bottomPadding]
      else s1
    let s3 :=
      if flags.horizontalAlign = some "center" then
        s2 ++ ["left: 50%", "transform: translateX(-50%)"]
      else if flags.horizontalAlign = some "left" then
        s2 ++ ["left: " ++ leftPadding]
      else if flags.horizontalAlign = some "right" then
        s2 ++ ["right: " ++ rightPadding]
      else s2
    { st with styles := s3 }
  else if key = "fixed" then st
  else if key = "center" || key = "left" || key = "right" then st
  else if key = "top" || key = "bottom" then st
  else if key = "size" then
    { st with styles := st.styles ++ ["font-size: " ++ getStyleValue key strValue] }
  else if key = "font" then
    { st with styles := st.styles ++ ["font-family: " ++ strValue] }
  else if key = "radius" then
    { st with styles := st.styles ++ ["border-radius: " ++ getStyleValue key strValue] }
  else if key = "border-color" then
    { st with styles := st.styles ++ ["border-color: " ++ strValue] }
  else if key = "border-size" then
    { st with styles := st.styles ++ ["border-width: " ++ getStyleValue key strValue, "border-style: solid"] }
  else if key = "bg" then
    if strIncludes strValue "gradient" then
      { st with styles := st.styles ++ ["background: " ++ strValue] }
    else
      { st with styles := st.styles ++ ["background-color: " ++ strValue] }
  else if key = "color" then
    { st with styles := st.styles ++ ["color: " ++ strValue] }
  else if key = "show" then
    if strValue = "false" || strValue = "0" then
      { st with styles := st.styles ++ ["display: none"] }
    else st
  else if key = "hide" then
    if strValue = "true" || strValue = "1" then
      { st with styles := st.styles ++ ["display: none"] }
    else st
  else if key = "width" then
    { st with styles := st.styles ++ ["width: " ++ getStyleValue key strValue] }
  else if key = "height" then
    { st with styles := st.styles ++ ["height: " ++ getStyleValue key strValue] }
  else if key = "padding" then
    { st with styles := st.styles ++ ["padding: " ++ getStyleValue key strValue] }
  else if key = "margin" then
    { st with styles := st.styles ++ ["margin: " ++ getStyleValue key strValue] }
  else if key = "gap" then
    { st with styles := st.styles ++ ["gap: " ++ getStyleValue key strValue] }
  else
    { st with attrs := st.attrs ++ " data-" ++ key ++ "=\"" ++ strValue ++ "\"" }

/-- The whole second props pass. -/
def propsOut (props : List (String × Value)) (flags : ElemFlags)
    (topPadding rightPadding bottomPadding leftPadding : String) : PropsOut :=
  props.foldl (propsStep props flags topPadding rightPadding bottomPadding leftPadding) {}

mutual

/-- Skeleton size of an element tree (counts constructors only, not
strings): the termination measure of the generator, invariant under
`replaceLoopVariable`. -/
def esize : ENode → Nat
  | .elem _ _ children _ => 1 + csizeList children
  | .forLoop _ _ elements => 1 + nsizeList elements

/-- Skeleton size of a child. -/
def csize : Child → Nat
  | .node e => 1 + esize e
  | .ifC _ thenC elseC =>
    1 + nsizeList thenC + (match elseC with | some l => nsizeList l | none => 0)

/-- Skeleton size of a child list. -/
def csizeList : List Child → Nat
  | [] => 0
  | c :: t => 1 + csize c + csizeList t

/-- Skeleton size of an element list. -/
def nsizeList : List ENode → Nat
  | [] => 0
  | e :: t => 1 + esize e + nsizeList t

end

/-- The props rewriting of `replaceLoopVariable`: a variable reference equal
to the loop variable becomes the placeholder string; a string containing the
brace-wrapped loop variable gets its first occurrence replaced; every other
value is kept. -/
def replProps (varName placeholder : String) : List (String × Value) → List (String × Value)
  | [] => []
  | (k, v) :: t =>
    let v2 := match v with
      | .var s => if s = varName then Value.string placeholder else .var s
      | .string s =>
        if strIncludes s ("\x7b" ++ varName ++ "\x7d") then
          Value.string ⟨replaceFirstL s.data ("\x7b" ++ varName ++ "\x7d").data placeholder.data⟩
        else .string s
      | other => other
    (k, v2) :: replProps varName placeholder t

mutual

/-- The translation of `PSLCompiler.replaceLoopVariable`: rewrite the props
and descend into element children.  A ForLoop node has no `props`/`children`
fields in JS, so it is returned unchanged; an `if` child has its
then-children mapped but its `elseChildren` and condition untouched (only
`newEl.children` is mapped in the source). -/
def replaceLoopVariable (varName placeholder : String) : ENode → ENode
  | .elem name props children handlers =>
    .elem name (replProps varName placeholder props)
      (replChildren varName placeholder children) handlers
  | .forLoop v c es => .forLoop v c es

/-- `newEl.children.map(child => this.replaceLoopVariable(child, ...))`. -/
def replChildren (varName placeholder : String) : List Child → List Child
  | [] => []
  | .node e :: t =>
    .node (replaceLoopVariable varName placeholder e) :: replChildren varName placeholder t
  | .ifC cond thenC elseC :: t =>
    .ifC cond (replENodes varName placeholder thenC) elseC :: replChildren varName placeholder t

/-- The map of `replaceLoopVariable` over an if-child's then-branch. -/
def replENodes (varName placeholder : String) : List ENode → List ENode
  | [] => []
  | e :: t => replaceLoopVariable varName placeholder e :: replENodes varName placeholder t

end

/-- Size preservation of `replaceLoopVariable` and its two list maps, by
strong induction on `sizeOf` (the three statements are mutually dependent). -/
theorem esize_replace_aux (vn ph : String) : ∀ n : Nat,
    (∀ e : ENode, sizeOf e ≤ n → esize (replaceLoopVariable vn ph e) = esize e) ∧
    (∀ l : List Child, sizeOf l ≤ n → csizeList (replChildren vn ph l) = csizeList l) ∧
    (∀ l : List ENode, sizeOf l ≤ n → nsizeList (replENodes vn ph l) = nsizeList l) := by
  intro n
  induction n using Nat.strong_induction_on with
  | _ n ih =>
    refine ⟨?_, ?_, ?_⟩
    · intro e he
      cases e with
      | elem name props children handlers =>
        have hs := ENode.elem.sizeOf_spec name props children handlers
        have hlt : sizeOf children < n := by omega
        have := (ih (sizeOf children) hlt).2.1 children le_rfl
        simp only [replaceLoopVariable, esize, this]
      | forLoop v c es =>
        simp only [replaceLoopVariable]
    · intro l hl
      cases l with
      | nil => simp only [replChildren]
      | cons c t =>
        have hs := List.cons.sizeOf_spec c t
        cases c with
        | node e =>
          have hse := Child.node.sizeOf_spec e
          have h1 : sizeOf e < n := by omega
          have h2 : sizeOf t < n := by omega
          have he := (ih (sizeOf e) h1).1 e le_rfl
          have ht := (ih (sizeOf t) h2).2.1 t le_rfl
          simp only [replChildren, csizeList, csize, he, ht]
        | ifC cond thenC elseC =>
          have hse := Child.ifC.sizeOf_spec cond thenC elseC
          have h1 : sizeOf thenC < n := by omega
          have h2 : sizeOf t < n := by omega
          have hthen := (ih (sizeOf thenC) h1).2.2 thenC le_rfl
          have ht := (ih (sizeOf t) h2).2.1 t le_rfl
          cases elseC with
          | none => simp only [replChildren, csizeList, csize, hthen, ht]
          | some els => simp only [replChildren, csizeList, csize, hthen, ht]
    · intro l hl
      cases l with
      | nil => simp only [replENodes]
      | cons e t =>
        have hs := List.cons.sizeOf_spec e t
        have h1 : sizeOf e < n := by omega
        have h2 : sizeOf t < n := by omega
        have he := (ih (sizeOf e) h1).1 e le_rfl
        have ht := (ih (sizeOf t) h2).2.2 t le_rfl
        simp only [replENodes, nsizeList, he, ht]

/-- `replaceLoopVariable` preserves the skeleton size. -/
theorem esize_replace (vn ph : String) (e : ENode) :
    esize (replaceLoopVariable vn ph e) = esize e :=
  (esize_replace_aux vn ph (sizeOf e)).1 e le_rfl

/-- `replENodes` preserves the skeleton size. -/
theorem nsizeList_replace (vn ph : String) (l : List ENode) :
    nsizeList (replENodes vn ph l) = nsizeList l :=
  (esize_replace_aux vn ph (sizeOf l)).2.2 l le_rfl

/-- The conditional-visibility script emitted for an `if` child: the condition is evaluated once at load and exactly one branch is shown. -/
def ifBlockScript (ifBlockId : String) (elseBlockId : Option String) (condJS : String) : String :=
    "\n            (function() \x7b\n              const ifEl = document.getElementById('"
      ++ ifBlockId ++ "');\n              "
      ++ (match elseBlockId with | some i => "const elseEl = document.getElementById('" ++ i ++ "');" | none => "")
      ++ "\n              \n              function updateConditionalDisplay() \x7b\n                  if ("
      ++ condJS
      ++ ") \x7b\n                      if (ifEl) ifEl.style.display = 'block';\n                      "
      ++ (match elseBlockId with | some _ => "if (elseEl) elseEl.style.display = 'none';" | none => "")
      ++ "\n                  \x7d else \x7b\n                      if (ifEl) ifEl.style.display = 'none';\n                      "
      ++ (match elseBlockId with | some _ => "if (elseEl) elseEl.style.display = 'block';" | none => "")
      ++ "\n                  \x7d\n              \x7d\n              updateConditionalDisplay();\n            \x7d)();\n          "

/-- The dragstart listener emitted when the element declared `draggable`. -/
def dragListenerJS : String :=
    "\n          el.addEventListener('dragstart', function(e) \x7b\n            e.dataTransfer.effectAllowed = 'move';\n            e.dataTransfer.setData('text/html', this.innerHTML);\n          \x7d);\n          "

/-- The per-element listener-registration code `generateElement` wraps in a script tag when the element has handlers, a `var` registration or drag data. -/
def handlerCodeJS (id : String) (elementVarName : Option String) (dragData : Bool) (handlersJS : String) : String :=
    "\n        (function() \x7b\n          const el = document.getElementById('" ++ id
      ++ "');\n          if (!el) return;\n          "
      ++ (match elementVarName with | some v => "window.psl_elements." ++ v ++ " = el;" | none => "")
      ++ "\n          \n          " ++ (if dragData then dragListenerJS else "")
      ++ "\n          \n          " ++ handlersJS ++ "\n        \x7d)();\n      "

/-- The anchor container and load-time script emitted by `generateForLoop`. -/
def forLoopHTML (containerId collectionJS escapedHTML : String) : String :=
    "\n      <div id=\"" ++ containerId
      ++ "\" class=\"psl-for-loop\"></div>\n      <script>\n        (function() \x7b\n          const container = document.getElementById('"
      ++ containerId ++ "');\n          const collection = " ++ collectionJS
      ++ ";\n          const templateHTML = `" ++ escapedHTML
      ++ "`;\n          \n          if (Array.isArray(collection)) \x7b\n            collection.forEach(function(loopItem) \x7b\n              let html = templateHTML.replace(/__LOOP_VAR__/g, loopItem);\n              container.insertAdjacentHTML('beforeend', html);\n            \x7d);\n          \x7d else if (typeof collection === 'object') \x7b\n            Object.values(collection).forEach(function(loopItem) \x7b\n              let html = templateHTML.replace(/__LOOP_VAR__/g, loopItem);\n              container.insertAdjacentHTML('beforeend', html);\n            \x7d);\n          \x7d\n        \x7d)();\n      </script>\n    "

/-- The listener emitted for a `drop` handler (with its dragover companion). -/
def dropHandlerJS (eventName : String) (isAsync : Bool) (actions : String) : String :=
    "\n              el.addEventListener('dragover', function(e) \x7b\n                e.preventDefault();\n                e.dataTransfer.dropEffect = 'move';\n              \x7d);\n              el.addEventListener('"
      ++ eventName ++ "', " ++ (if isAsync then "async" else "")
      ++ " function(e) \x7b\n                e.preventDefault();\n                " ++ actions
      ++ "\n              \x7d);"

/-- The page container opener emitted by `generatePages` (the active class marker goes to the page whose name equals the first declared page name). -/
def pageOpenHTML (pageName pagePadding pageBg : String) (isActive : Bool) : String :=
    "<div data-page=\"" ++ pageName ++ "\" data-padding=\"" ++ pagePadding
      ++ "\" class=\"page " ++ (if isActive then "active" else "") ++ "\" style=\"padding: "
      ++ pagePadding ++ "; " ++ pageBg ++ "\">"

/-- The fixed reactive-trigger function `generateJavaScript` emits: it invokes every watcher registered for the mutated name and refreshes reactive text placeholders. -/
def triggerWatchersJS : String :=
    "\nwindow.psl_triggerWatchers = function(varName) \x7b\n  window.psl_watchers.forEach(function(watcher) \x7b\n    if (watcher.variable === varName) \x7b\n      watcher.callback();\n    \x7d\n  \x7d);\n  \n  // Update template strings\n  document.querySelectorAll('.psl-var').forEach(function(el) \x7b\n    const varName = el.getAttribute('data-var');\n    if (window.psl_vars[varName] !== undefined) \x7b\n      el.textContent = window.psl_vars[varName];\n    \x7d\n  \x7d);\n\x7d;\n"

/-- The watcher registration emitted per `watch` declaration. -/
def watcherPushJS (varName actions : String) : String :=
    "\nwindow.psl_watchers.push(\x7b\n  variable: '" ++ varName
      ++ "',\n  callback: function() \x7b\n    " ++ actions ++ "\n  \x7d\n\x7d);\n"

/-- The interval registration emitted per `every` declaration. -/
def intervalPushJS (duration actions : String) : String :=
    "\nwindow.psl_intervals.push(setInterval(function() \x7b\n  " ++ actions ++ "\n\x7d, "
      ++ duration ++ "));\n"

/-- The keyboard dispatcher header. -/
def keyHandlerHeadJS : String :=
    "\ndocument.addEventListener('keydown', function(e) \x7b\n  const currentKey = e.key.toLowerCase();\n"

/-- One keyboard dispatcher branch. -/
def keyHandlerCaseJS (keyJS actions : String) : String :=
    "\n  if (currentKey === " ++ keyJS
      ++ ".toLowerCase()) \x7b\n    e.preventDefault(); \n    " ++ actions ++ "\n  \x7d\n"

/-- The placeholder render helper emitted verbatim. -/
def renderElementHelperJS : String :=
    "\nwindow.psl_renderElement = function(el, pageName, pagePadding, loopVar) \x7b\n  // This is a placeholder - in a real implementation, this would recreate the element\n  return '<div>Loop item</div>';\n\x7d;\n"

/-- The page-switch utility emitted verbatim. -/
def showPageJS : String :=
    "window.showPage = function(name) \x7b\n      document.querySelectorAll('[data-page]').forEach(p => p.classList.remove('active'));\n      const p = document.querySelector('[data-page=\"' + name + '\"]');\n      if (p) p.classList.add('active');\n    \x7d;"

/-- The load-time initialization of reactive text placeholders. -/
def initTemplateStringsJS : String :=
    "\nsetTimeout(function() \x7b\n  document.querySelectorAll('.psl-var').forEach(function(el) \x7b\n    const varName = el.getAttribute('data-var');\n    if (window.psl_vars[varName] !== undefined) \x7b\n      el.textContent = window.psl_vars[varName];\n    \x7d\n  \x7d);\n\x7d, 0);\n"

/-- The fixed stylesheet prefix of `generateCSS`. -/
def cssBase : String :=
    "\n      body \x7b background: #f5f5f5; font-family: Arial, sans-serif; margin: 0; padding: 0; \x7d\n      [data-page] \x7b padding: 20px; display: flex; flex-direction: column; position: relative; min-height: 100vh; \x7d\n      button \x7b padding: 10px 15px; cursor: pointer; background: #2196F3; color: white; border: none; border-radius: 4px; \x7d\n      button:hover \x7b background: #1976D2; \x7d\n      input \x7b padding: 8px; border: 1px solid #ddd; border-radius: 4px; \x7d\n      h1, h2, h3, p \x7b margin: 10px 0; \x7d\n      div, h1, h2, h3, p, button, input \x7b box-sizing: border-box; \x7d\n      img \x7b height: 50px; user-select: none; -webkit-user-drag: none; -webkit-user-select: none; pointer-events: auto; \x7d\n      * \x7b user-select: none; -webkit-user-select: none; -moz-user-select: none; -ms-user-select: none; \x7d\n      input, textarea \x7b user-select: text; -webkit-user-select: text; -moz-user-select: text; -ms-user-select: text; \x7d\n      \n      /* Animations */\n      @keyframes fadeIn \x7b from \x7b opacity: 0; \x7d to \x7b opacity: 1; \x7d \x7d\n      @keyframes fadeOut \x7b from \x7b opacity: 1; \x7d to \x7b opacity: 0; \x7d \x7d\n      @keyframes slideUp \x7b from \x7b transform: translateY(20px); opacity: 0; \x7d to \x7b transform: translateY(0); opacity: 1; \x7d \x7d\n      @keyframes slideDown \x7b from \x7b transform: translateY(-20px); opacity: 0; \x7d to \x7b transform: translateY(0); opacity: 1; \x7d \x7d\n      @keyframes slideLeft \x7b from \x7b transform: translateX(20px); opacity: 0; \x7d to \x7b transform: translateX(0); opacity: 1; \x7d \x7d\n      @keyframes slideRight \x7b from \x7b transform: translateX(-20px); opacity: 0; \x7d to \x7b transform: translateX(0); opacity: 1; \x7d \x7d\n      @keyframes bounce \x7b 0%, 100% \x7b transform: translateY(0); \x7d 50% \x7b transform: translateY(-10px); \x7d \x7d\n      @keyframes pulse \x7b 0%, 100% \x7b transform: scale(1); \x7d 50% \x7b transform: scale(1.05); \x7d \x7d\n      @keyframes spin \x7b from \x7b transform: rotate(0deg); \x7d to \x7b transform: rotate(360deg); \x7d \x7d\n    "

/-- The offline-cache service-worker script of `generateServiceWorker`. -/
def serviceWorkerJS (cacheName : String) : String :=
    "\nconst CACHE_NAME = '" ++ cacheName
      ++ "';\nconst urlsToCache = ['/'];\n\nself.addEventListener('install', e => \x7b\n  e.waitUntil(\n    caches.open(CACHE_NAME).then(cache => cache.addAll(urlsToCache))\n  );\n  self.skipWaiting();\n\x7d);\n\nself.addEventListener('activate', e => \x7b\n  e.waitUntil(\n    caches.keys().then(cacheNames => \x7b\n      return Promise.all(\n        cacheNames.map(cacheName => \x7b\n          if (cacheName !== CACHE_NAME) \x7b\n            return caches.delete(cacheName);\n          \x7d\n        \x7d)\n      );\n    \x7d)\n  );\n  self.clients.claim();\n\x7d);\n\nself.addEventListener('fetch', e => \x7b\n  e.respondWith(\n    caches.match(e.request).then(response => \x7b\n      return response || fetch(e.request).then(fetchResponse => \x7b\n        return caches.open(CACHE_NAME).then(cache => \x7b\n          cache.put(e.request, fetchResponse.clone());\n          return fetchResponse;\n        \x7d);\n      \x7d);\n    \x7d).catch(() => new Response('Offline'))\n  );\n\x7d);"

/-- The whole output document of `generateHTML`, with the four compiler-filled parts spliced in. -/
def htmlDocument (titleStr css pages js swBase64 : String) : String :=
    "<!DOCTYPE html>\n<html lang=\"fr\">\n<head>\n    <meta charset=\"UTF-8\">\n    <meta name=\"viewport\" content=\"width=device-width, initial-scale=1.0, maximum-scale=1.0, user-scalable=no\">\n    <meta name=\"theme-color\" content=\"#2196F3\">\n    <title>"
      ++ titleStr
      ++ "</title>\n    <script>\n        window.psl_vars = \x7b\x7d;\n        window.psl_elements = \x7b\x7d;\n        window.psl_watchers = [];\n        window.psl_intervals = [];\n    </script>\n    <style>\n        * \x7b margin: 0; padding: 0; box-sizing: border-box; \x7d\n        body \x7b font-family: Arial, sans-serif; \x7d\n        [data-page] \x7b display: none; \x7d\n        [data-page].active \x7b display: block; \x7d\n        "
      ++ css ++ "\n    </style>\n</head>\n<body>\n    <div id=\"app\">\n        " ++ pages
      ++ "\n    </div>\n    <script>\n        " ++ js
      ++ "\n        // Prevent pinch zoom\n        document.addEventListener('gesturestart', function(e) \x7b\n            e.preventDefault();\n        \x7d);\n        document.addEventListener('gesturechange', function(e) \x7b\n            e.preventDefault();\n        \x7d);\n        document.addEventListener('gestureend', function(e) \x7b\n            e.preventDefault();\n        \x7d);\n        // Prevent double-tap zoom\n        let lastTouchEnd = 0;\n        document.addEventListener('touchend', function(e) \x7b\n            const now = Date.now();\n            if (now - lastTouchEnd <= 300) \x7b\n                e.preventDefault();\n            \x7d\n            lastTouchEnd = now;\n        \x7d, false);\n        // Prevent image dragging\n        document.addEventListener('DOMContentLoaded', function() \x7b\n            document.querySelectorAll('img').forEach(function(img) \x7b\n                img.setAttribute('draggable', 'false');\n                img.addEventListener('dragstart', function(e) \x7b\n                    e.preventDefault();\n                    return false;\n                \x7d);\n                img.addEventListener('mousedown', function(e) \x7b\n                    e.preventDefault();\n                \x7d);\n            \x7d);\n        \x7d);\n        // Prevent dragging for dynamically added images\n        const observer = new MutationObserver(function(mutations) \x7b\n            mutations.forEach(function(mutation) \x7b\n                mutation.addedNodes.forEach(function(node) \x7b\n                    if (node.tagName === 'IMG') \x7b\n                        node.setAttribute('draggable', 'false');\n                        node.addEventListener('dragstart', function(e) \x7b\n                            e.preventDefault();\n                            return false;\n                        \x7d);\n                        node.addEventListener('mousedown', function(e) \x7b\n                            e.preventDefault();\n                        \x7d);\n                    \x7d\n                    if (node.querySelectorAll) \x7b\n                        node.querySelectorAll('img').forEach(function(img) \x7b\n                            img.setAttribute('draggable', 'false');\n                            img.addEventListener('dragstart', function(e) \x7b\n                                e.preventDefault();\n                                return false;\n                            \x7d);\n                            img.addEventListener('mousedown', function(e) \x7b\n                                e.preventDefault();\n                            \x7d);\n                        \x7d);\n                    \x7d\n                \x7d);\n            \x7d);\n        \x7d);\n        observer.observe(document.body, \x7b childList: true, subtree: true \x7d);\n        \n        // Swipe detection\n        window.setupSwipeDetection = function() \x7b\n            let touchStartX = 0;\n            let touchStartY = 0;\n            let touchEndX = 0;\n            let touchEndY = 0;\n            const minSwipeDistance = 50;\n            \n            document.addEventListener('touchstart', function(e) \x7b\n                touchStartX = e.changedTouches[0].screenX;\n                touchStartY = e.changedTouches[0].screenY;\n            \x7d, false);\n            \n            document.addEventListener('touchend', function(e) \x7b\n                touchEndX = e.changedTouches[0].screenX;\n                touchEndY = e.changedTouches[0].screenY;\n                handleSwipe();\n            \x7d, false);\n            \n            function handleSwipe() \x7b\n                const deltaX = touchEndX - touchStartX;\n                const deltaY = touchEndY - touchStartY;\n                \n                if (Math.abs(deltaX) > Math.abs(deltaY) && Math.abs(deltaX) > minSwipeDistance) \x7b\n                    if (deltaX > 0) \x7b\n                        window.dispatchEvent(new CustomEvent('psl-swipe-right'));\n                    \x7d else \x7b\n                        window.dispatchEvent(new CustomEvent('psl-swipe-left'));\n                    \x7d\n                \x7d else if (Math.abs(deltaY) > minSwipeDistance) \x7b\n                    if (deltaY > 0) \x7b\n                        window.dispatchEvent(new CustomEvent('psl-swipe-down'));\n                    \x7d else \x7b\n                        window.dispatchEvent(new CustomEvent('psl-swipe-up'));\n                    \x7d\n                \x7d\n            \x7d\n        \x7d;\n        window.setupSwipeDetection();\n        \n        // Notification support\n        window.notify = function(message, duration = 3000) \x7b\n            if ('Notification' in window && Notification.permission === 'granted') \x7b\n                new Notification(message);\n            \x7d else if ('Notification' in window && Notification.permission !== 'denied') \x7b\n                Notification.requestPermission().then(function(permission) \x7b\n                    if (permission === 'granted') \x7b\n                        new Notification(message);\n                    \x7d else \x7b\n                        showToast(message, duration);\n                    \x7d\n                \x7d);\n            \x7d else \x7b\n                showToast(message, duration);\n            \x7d\n        \x7d;\n        \n        function showToast(message, duration) \x7b\n            const toast = document.createElement('div');\n            toast.textContent = message;\n            toast.style.cssText = 'position:fixed;bottom:20px;left:50%;transform:translateX(-50%);background:#333;color:white;padding:12px 24px;border-radius:4px;z-index:10000;';\n            document.body.appendChild(toast);\n            setTimeout(() => toast.remove(), duration);\n        \x7d\n        \n        // LocalStorage helpers\n        window.save = function(key, value) \x7b\n            try \x7b\n                localStorage.setItem(key, JSON.stringify(value));\n            \x7d catch(e) \x7b\n                console.error('LocalStorage save error:', e);\n            \x7d\n        \x7d;\n        \n        window.load = function(key, defaultValue = null) \x7b\n            try \x7b\n                const item = localStorage.getItem(key);\n                return item ? JSON.parse(item) : defaultValue;\n            \x7d catch(e) \x7b\n                console.error('LocalStorage load error:', e);\n                return defaultValue;\n            \x7d\n        \x7d;\n        \n        if ('serviceWorker' in navigator && location.protocol === 'https:') \x7b\n            navigator.serviceWorker.register(\n                'data:application/javascript;base64,"
      ++ swBase64
      ++ "',\n                \x7b scope: '/' \x7d\n            ).catch(e => console.log('SW error:', e));\n        \x7d\n    </script>\n</body>\n</html>"


/-- The listener emitted for an ordinary (non-drop) event handler; the
source has two separate template strings for the async and plain cases,
differing exactly in the text `async `. -/
def plainHandlerJS (eventName : String) (isAsync : Bool) (actions : String) : String :=
    "el.addEventListener('" ++ eventName ++ "', " ++ (if isAsync then "async " else "")
      ++ "function() \x7b " ++ actions ++ " \x7d);"

/-- The backquote character (code 96), written by code point. -/
def backquote : Char := Char.ofNat 96

/-- The escaping `generateForLoop` applies to the rendered template markup
before embedding it in a JS template literal: three successive global
replaces, `\` to `\\`, backquote to backslash-backquote, `$` to `\$`. -/
def escapeTemplateHTML (s : String) : String :=
  ⟨replaceCharAll (replaceCharAll (replaceCharAll s.data '\\' ['\\', '\\'])
      backquote ['\\', backquote]) '$' ['\\', '$']⟩

/-- `h.event.replace('on', '').toLowerCase()` of the handler loop. -/
def handlerEventName (ev : String) : String :=
  lowerStr ⟨replaceFirstL ev.data "on".data []⟩

/-- One iteration of `generateElement`'s handler loop: event name, joined
action code, async detection by searching the action code for `await`, and
the drop special case. -/
def handlerToJS (pageNames : List String) (id : String) (h : Handler) : String :=
  let eventName := handlerEventName h.event
  let actions := strConcat (actionsToJS pageNames h.actions id)
  let isAsync := strIncludes actions "await"
  if eventName = "drop" then dropHandlerJS eventName isAsync actions
  else plainHandlerJS eventName isAsync actions

/-- JS truthiness of the `elementVarName` local (a string or null): the
empty string is falsy, so it behaves like null. -/
def squashEmpty : Option String → Option String
  | some s => if s = "" then none else some s
  | none => none

/-- The translation of `PSLCompiler.generateSwipeHandler`. -/
def generateSwipeHandler (pageNames : List String) (direction : String)
    (actions : List PslAction) : String :=
  "<script>\n      window.addEventListener('psl-swipe-" ++ direction
    ++ "', function() \x7b\n        " ++ strConcat (actionsToJS pageNames actions "global")
    ++ "\n      \x7d);\n    </script>"

mutual

/-- The translation of `PSLCompiler.generateElement`.  The mutable
`this.elementId` counter becomes the explicit `id0` argument; the result is
the markup, the counter after the call, and the list of counter values
consumed (one per `this.elementId++`), in allocation order.  A ForLoop node
dispatches to `generateForLoop` as in the source's first lines. -/
def generateElement (pageNames : List String) (pageName pagePadding : String)
    (id0 : Nat) : ENode → String × Nat × List Nat
  | .forLoop varName coll elements =>
    generateForLoop pageNames pageName pagePadding id0 varName coll elements
  | .elem name props children handlers =>
    let tag := getElementTag name
    let id := "el_" ++ natToStr id0
    let pp := splitPaddingParts pagePadding
    let flags := elemFlags props
    let wrapperOpen :=
      if flags.needsWrapper && !flags.hasBasePositioning then
        "<div style=\"" ++
          joinSep "; " (["display: flex"] ++
            (match flags.justifyContent with
              | some j => ["justify-content: " ++ j] | none => []) ++
            (match flags.alignItems with
              | some a => ["align-items: " ++ a] | none => [])) ++ "\">"
      else ""
    let wrapperClose :=
      if flags.needsWrapper && !flags.hasBasePositioning then "</div>" else ""
    let pout := propsOut props flags pp.1 pp.2.1 pp.2.2.1 pp.2.2.2
    let openTag := wrapperOpen ++ "<" ++ tag ++ " id=\"" ++ id ++ "\"" ++ pout.attrs ++
      (if 0 < pout.styles.length then
        " style=\"" ++ joinSep "; " pout.styles ++ "\"" else "") ++ ">"
    let textPart :=
      match props.lookup "text" with
      | some tv => if tag ≠ "img" then interpolateTemplateString (valueToString tv) else ""
      | none => ""
    let r := generateChildren pageNames pageName pagePadding (id0 + 1) children
    let evn := squashEmpty pout.elementVarName
    let handlerPart :=
      if 0 < handlers.length || evn.isSome || pout.dragData then
        "<script>" ++
          handlerCodeJS id evn pout.dragData
            (joinSep "\n" (handlers.map (handlerToJS pageNames id))) ++ "</script>"
      else ""
    (openTag ++ textPart ++ r.1 ++ "</" ++ tag ++ ">" ++ wrapperClose ++ handlerPart,
     r.2.1, id0 :: r.2.2)
termination_by e => 2 * esize e
decreasing_by
  all_goals simp only [esize]
  all_goals omega

/-- The translation of `PSLCompiler.generateForLoop`: allocate the anchor
container's id, render one template instance of the loop body with the loop
variable replaced by `__LOOP_VAR__`, escape it, and splice into the
load-time insertion script. -/
def generateForLoop (pageNames : List String) (pageName pagePadding : String)
    (id0 : Nat) (varName : String) (coll : Value) (elements : List ENode) :
    String × Nat × List Nat :=
  let containerId := "for_loop_" ++ natToStr id0
  let collectionJS := valueToJSString coll
  let r := generateLoopElements pageNames pageName pagePadding varName (id0 + 1) elements
  (forLoopHTML containerId collectionJS (escapeTemplateHTML r.1), r.2.1, id0 :: r.2.2)
termination_by 2 * nsizeList elements + 1
decreasing_by
  omega

/-- `forLoop.elements.map(el => generateElement(replaceLoopVariable(el, ...)))`
with the counter threaded left to right and the pieces joined by `''`. -/
def generateLoopElements (pageNames : List String) (pageName pagePadding varName : String)
    (id0 : Nat) : List ENode → String × Nat × List Nat
  | [] => ("", id0, [])
  | e :: t =>
    let r1 := generateElement pageNames pageName pagePadding id0
      (replaceLoopVariable varName "__LOOP_VAR__" e)
    let r2 := generateLoopElements pageNames pageName pagePadding varName r1.2.1 t
    (r1.1 ++ r2.1, r2.2.1, r1.2.2 ++ r2.2.2)
termination_by l => 2 * nsizeList l
decreasing_by
  · simp only [nsizeList, esize_replace]
    omega
  · simp only [nsizeList]
    omega

/-- The children loop of `generateElement`: nested elements and for-loops
recurse; an `if` child allocates the if-block id, optionally the else-block
id (only when `elseChildren` is non-null and nonempty), renders both branch
containers hidden, and appends the load-time visibility script. -/
def generateChildren (pageNames : List String) (pageName pagePadding : String)
    (id0 : Nat) : List Child → String × Nat × List Nat
  | [] => ("", id0, [])
  | .node e :: t =>
    let r1 := generateElement pageNames pageName pagePadding id0 e
    let r2 := generateChildren pageNames pageName pagePadding r1.2.1 t
    (r1.1 ++ r2.1, r2.2.1, r1.2.2 ++ r2.2.2)
  | .ifC cond thenC elseC :: t =>
    let condJS := valueToJSString cond
    let ifBlockId := "if_block_" ++ natToStr id0
    match elseC with
    | some el =>
      if 0 < el.length then
        let elseBlockId := "else_block_" ++ natToStr (id0 + 1)
        let rThen := generateENodes pageNames pageName pagePadding (id0 + 2) thenC
        let rElse := generateENodes pageNames pageName pagePadding rThen.2.1 el
        let html :=
          "<div id=\"" ++ ifBlockId ++
            "\" class=\"psl-if-block\" style=\"display: none; margin: 0;\">\n" ++
            rThen.1 ++ "\n</div>" ++
          "<div id=\"" ++ elseBlockId ++
            "\" class=\"psl-else-block\" style=\"display: none; margin: 0;\">\n" ++
            rElse.1 ++ "\n</div>" ++
          "<script>" ++ ifBlockScript ifBlockId (some elseBlockId) condJS ++ "</script>"
        let r2 := generateChildren pageNames pageName pagePadding rElse.2.1 t
        (html ++ r2.1, r2.2.1, id0 :: (id0 + 1) :: (rThen.2.2 ++ rElse.2.2) ++ r2.2.2)
      else
        let rThen := generateENodes pageNames pageName pagePadding (id0 + 1) thenC
        let html :=
          "<div id=\"" ++ ifBlockId ++
            "\" class=\"psl-if-block\" style=\"display: none; margin: 0;\">\n" ++
            rThen.1 ++ "\n</div>" ++
          "<script>" ++ ifBlockScript ifBlockId none condJS ++ "</script>"
        let r2 := generateChildren pageNames pageName pagePadding rThen.2.1 t
        (html ++ r2.1, r2.2.1, id0 :: rThen.2.2 ++ r2.2.2)
    | none =>
      let rThen := generateENodes pageNames pageName pagePadding (id0 + 1) thenC
      let html :=
        "<div id=\"" ++ ifBlockId ++
          "\" class=\"psl-if-block\" style=\"display: none; margin: 0;\">\n" ++
          rThen.1 ++ "\n</div>" ++
        "<script>" ++ ifBlockScript ifBlockId none condJS ++ "</script>"
      let r2 := generateChildren pageNames pageName pagePadding rThen.2.1 t
      (html ++ r2.1, r2.2.1, id0 :: rThen.2.2 ++ r2.2.2)
termination_by l => 2 * csizeList l
decreasing_by
  all_goals simp only [csizeList, csize, esize]
  all_goals omega

/-- `child.children.map(c => generateElement(c, ...))` (the if-branch maps). -/
def generateENodes (pageNames : List String) (pageName pagePadding : String)
    (id0 : Nat) : List ENode → String × Nat × List Nat
  | [] => ("", id0, [])
  | e :: t =>
    let r1 := generateElement pageNames pageName pagePadding id0 e
    let r2 := generateENodes pageNames pageName pagePadding r1.2.1 t
    (r1.1 ++ r2.1, r2.2.1, r1.2.2 ++ r2.2.2)
termination_by l => 2 * nsizeList l
decreasing_by
  all_goals simp only [nsizeList]
  all_goals omega

end

/-- The page padding resolution of `generatePages` (defaulted to `20px`). -/
def pagePadOf (page : Page) : String :=
  match page.padding with
  | some v => getStyleValue "padding" (valueToString v)
  | none => "20px"

/-- The page background resolution of `generatePages` (empty when absent). -/
def pageBgOf (page : Page) : String :=
  match page.bg with
  | some v => "background-color: " ++ valueToString v ++ ";"
  | none => ""

/-- `page.elements.map(el => ...)` of `generatePages`: a SwipeHandler entry
consumes no ids, an element entry recurses; the per-item strings are later
joined with a newline. -/
def pageItemsGo (pageNames : List String) (pageName pagePadding : String)
    (id0 : Nat) : List PageItem → List String × Nat × List Nat
  | [] => ([], id0, [])
  | .swipe dir acts :: t =>
    let r := pageItemsGo pageNames pageName pagePadding id0 t
    (generateSwipeHandler pageNames dir acts :: r.1, r.2.1, r.2.2)
  | .node e :: t =>
    let r1 := generateElement pageNames pageName pagePadding id0 e
    let r2 := pageItemsGo pageNames pageName pagePadding r1.2.1 t
    (r1.1 :: r2.1, r2.2.1, r1.2.2 ++ r2.2.2)

/-- The page loop of `generatePages`: each page resolves its padding and
background, opens its container (active exactly when its name equals the
first declared page name), renders its items joined by a newline, and
closes the container. -/
def generatePagesGo (pageNames : List String) (firstName : String) (id0 : Nat) :
    List (String × Page) → String × Nat × List Nat
  | [] => ("", id0, [])
  | (pageName, page) :: rest =>
    let pagePadding := pagePadOf page
    let pageBg := pageBgOf page
    let r := pageItemsGo pageNames pageName pagePadding id0 page.elements
    let html := pageOpenHTML pageName pagePadding pageBg (pageName == firstName)
      ++ joinSep "\n" r.1 ++ "</div>"
    let r2 := generatePagesGo pageNames firstName r.2.1 rest
    (html ++ r2.1, r2.2.1, r.2.2 ++ r2.2.2)

/-- The translation of `PSLCompiler.generatePages`, with the counter value
at entry as `id0` and the consumed ids returned alongside the markup. -/
def generatePages (ast : Program) (id0 : Nat) : String × Nat × List Nat :=
  let pageNames := ast.pages.map Prod.fst
  generatePagesGo pageNames (pageNames.headD "") id0 ast.pages

/-- One media-query rule line of `generateCSS`. -/
def mediaRuleCSS (selector : String) (v : Value) : String :=
  "  " ++ selector ++ " \x7b " ++ propertyToCSS selector (valueToString v) ++ " \x7d\n"

/-- One media-query block of `generateCSS`. -/
def mediaBlockCSS (kv : String × List (String × Value)) : String :=
  "\n" ++ getMediaQuery kv.1 ++ " \x7b\n" ++
    strConcat (kv.2.map fun r => mediaRuleCSS r.1 r.2) ++ "\x7d\n"

/-- The translation of `PSLCompiler.generateCSS`. -/
def generateCSS (ast : Program) : String :=
  cssBase ++ strConcat (ast.mediaQueries.map mediaBlockCSS)

/-- The translation of `PSLCompiler.generateServiceWorker` (the cache name
is the fixed string `psl-cache-v1`). -/
def generateServiceWorker : String :=
  serviceWorkerJS "psl-cache-v1"

/-- The translation of `PSLCompiler.generateJavaScript`: store
initialization, the trigger function, watcher and interval registrations,
user functions, top-level statements, the keyboard dispatcher (emitted only
when key handlers exist), the render helper, the page-switch utility, and
the placeholder initialization, concatenated in source order. -/
def generateJavaScript (ast : Program) : String :=
  let pageNames := ast.pages.map Prod.fst
  "// Global variables and reactive system\n"
  ++ strConcat (ast.globalVariables.map fun kv =>
      "window.psl_vars." ++ kv.1 ++ " = " ++ valueToJSString kv.2 ++ ";\n")
  ++ triggerWatchersJS
  ++ strConcat (ast.watchers.map fun w =>
      watcherPushJS (valueToString w.watched)
        (strConcat (actionsToJS pageNames w.actions "global")))
  ++ strConcat (ast.intervals.map fun i =>
      intervalPushJS (valueToJSString i.duration)
        (strConcat (actionsToJS pageNames i.actions "global")))
  ++ strConcat (ast.functions.map fun kv =>
      "window." ++ kv.1 ++ " = function(" ++ joinSep ", " kv.2.params ++ ") \x7b "
        ++ strConcat (stmtsToJS kv.2.body) ++ " \x7d;\n")
  ++ strConcat (stmtsToJS ast.statements)
  ++ (if 0 < ast.keyHandlers.length then
        keyHandlerHeadJS
        ++ strConcat (ast.keyHandlers.map fun h =>
            keyHandlerCaseJS (valueToJSString h.key)
              (strConcat (actionsToJS pageNames h.actions "global")))
        ++ "\x7d);\n"
      else "")
  ++ renderElementHelperJS
  ++ showPageJS
  ++ initTemplateStringsJS

/-- The base64 alphabet character at index `n`. -/
def b64Char (n : Nat) : Char :=
  "ABCDEFGHIJKLMNOPQRSTUVWXYZabcdefghijklmnopqrstuvwxyz0123456789+/".data.getD n 'A'

/-- Standard base64 of a byte list (`Buffer.toString('base64')`), with
`=` padding. -/
def base64Go : List Nat → List Char
  | [] => []
  | [a] => [b64Char (a / 4), b64Char (a % 4 * 16), '=', '=']
  | [a, b] => [b64Char (a / 4), b64Char (a % 4 * 16 + b / 16), b64Char (b % 16 * 4), '=']
  | a :: b :: c :: t =>
    [b64Char (a / 4), b64Char (a % 4 * 16 + b / 16),
     b64Char (b % 16 * 4 + c / 64), b64Char (c % 64)] ++ base64Go t

/-- UTF-8 bytes of one code point (`Buffer.from` uses UTF-8; the service
worker text is ASCII, so the one-byte branch is the one exercised). -/
def utf8Char (c : Char) : List Nat :=
  let n := c.toNat
  if n < 128 then [n]
  else if n < 2048 then [192 + n / 64, 128 + n % 64]
  else if n < 65536 then [224 + n / 4096, 128 + (n / 64) % 64, 128 + n % 64]
  else [240 + n / 262144, 128 + (n / 4096) % 64, 128 + (n / 64) % 64, 128 + n % 64]

/-- UTF-8 bytes of a character list. -/
def utf8Str : List Char → List Nat
  | [] => []
  | c :: t => utf8Char c ++ utf8Str t

/-- `Buffer.from(s).toString('base64')`. -/
def base64Encode (s : String) : String :=
  ⟨base64Go (utf8Str s.data)⟩

/-- The translation of `PSLCompiler.generateHTML`: the fixed document with
the title (metadata `name`, defaulted to `App` — JS `||`, so an empty
string also defaults), the stylesheet, the page markup (the element-id
counter is 0 when the pages render: neither `generateCSS` nor
`generateJavaScript` touches it), the behavior script, and the
base64-encoded service worker spliced in. -/
def generateHTML (ast : Program) : String :=
  let css := generateCSS ast
  let js := generateJavaScript ast
  let titleStr :=
    match getMetadata ast.metadata "name" with
    | some s => if s = "" then "App" else s
    | none => "App"
  htmlDocument titleStr css (generatePages ast 0).1 js (base64Encode generateServiceWorker)

/-- The translation of `PSLCompiler.compile` (a fresh compiler instance has
`elementId = 0`). -/
def compile (ast : Program) : String :=
  generateHTML ast


/-- `join('')` of a cons. -/
theorem strConcat_cons (a : String) (l : List String) :
    strConcat (a :: l) = a ++ strConcat l := by
  cases l with
  | nil => simp [strConcat, joinSep]
  | cons b t => simp [strConcat, joinSep]

/-- Case-insensitive prefix matching is reflexive. -/
theorem ciPrefixL_self : ∀ l : List Char, ciPrefixL l l = true
  | [] => rfl
  | c :: t => by simp [ciPrefixL, charCI, ciPrefixL_self t]

/-- The single-character global replace as a map-flatten. -/
theorem replaceCharAll_eq_flatten (c : Char) (rep : List Char) :
    ∀ l : List Char,
      replaceCharAll l c rep = (l.map fun a => if a = c then rep else [a]).flatten
  | [] => rfl
  | a :: t => by
    simp only [replaceCharAll, List.map_cons, List.flatten_cons,
      replaceCharAll_eq_flatten c rep t]

/-- A global replace whose pattern character does not occur is the
identity. -/
theorem replaceCharAll_id (c : Char) (rep : List Char) :
    ∀ l : List Char, l.contains c = false → replaceCharAll l c rep = l
  | [], _ => rfl
  | a :: t, h => by
    simp only [List.contains_cons, Bool.or_eq_false_iff] at h
    have ha : a ≠ c := by
      intro hac
      simp [hac] at h
    simp only [replaceCharAll, if_neg ha, List.singleton_append,
      replaceCharAll_id c rep t h.2]


/-- Every page rendered with a name different from the first declared page
name gets the inactive container opener (`false` marker):  the loop emits,
for each such page in order, its opener, its body, and the closing tag. -/
theorem generatePagesGo_all_inactive (pns : List String) (first : String) :
    ∀ (rest : List (String × Page)) (id0 : Nat),
      (∀ nm ∈ rest.map Prod.fst, nm ≠ first) →
      ∃ bodies : List String, bodies.length = rest.length ∧
        (generatePagesGo pns first id0 rest).1 =
          strConcat (List.zipWith
            (fun pg b => pageOpenHTML pg.1 (pagePadOf pg.2) (pageBgOf pg.2) false
              ++ b ++ "</div>") rest bodies)
  | [], id0, _ => ⟨[], rfl, rfl⟩
  | (nm, pg) :: rest, id0, h => by
    have hnm : nm ≠ first := h nm (by simp)
    obtain ⟨bodies, hlen, hrest⟩ :=
      generatePagesGo_all_inactive pns first rest
        (pageItemsGo pns nm (pagePadOf pg) id0 pg.elements).2.1
        (fun x hx => h x (by simp [hx]))
    refine ⟨joinSep "\n" (pageItemsGo pns nm (pagePadOf pg) id0 pg.elements).1 :: bodies,
      by simp [hlen], ?_⟩
    simp only [generatePagesGo, List.zipWith_cons_cons, strConcat_cons]
    rw [beq_eq_false_iff_ne.mpr hnm]
    rw [hrest]


/-- `range'` with step 1: adjacent blocks concatenate. -/
theorem range1_append (s m n : Nat) :
    List.range' s m ++ List.range' (s + m) n = List.range' s (m + n) := by
  have h := List.range'_append s m n 1
  simp only [one_mul] at h
  rw [Nat.add_comm m n]
  exact h

/-- The counter/ids contract of one generator call: starting from `id0` it
returns some `id0 + k` and consumes exactly the ids `id0, ..., id0 + k - 1`
in order. -/
abbrev IdsConsecutive {α : Type} (id0 : Nat) (r : α × Nat × List Nat) : Prop :=
  ∃ k, r.2.1 = id0 + k ∧ r.2.2 = List.range' id0 k

/-- Counter/ids shape of `generateElement` on an Element node. -/
theorem generateElement_elem_snd (pns : List String) (pn pp : String) (id0 : Nat)
    (name : String) (props : List (String × Value)) (children : List Child)
    (handlers : List Handler) :
    (generateElement pns pn pp id0 (ENode.elem name props children handlers)).2 =
      ((generateChildren pns pn pp (id0 + 1) children).2.1,
       id0 :: (generateChildren pns pn pp (id0 + 1) children).2.2) := by
  simp only [generateElement]

/-- `generateElement` dispatches ForLoop nodes to `generateForLoop`. -/
theorem generateElement_for_eq (pns : List String) (pn pp : String) (id0 : Nat)
    (v : String) (c : Value) (es : List ENode) :
    generateElement pns pn pp id0 (ENode.forLoop v c es) =
      generateForLoop pns pn pp id0 v c es := by
  simp only [generateElement]

/-- Counter/ids shape of `generateForLoop`. -/
theorem generateForLoop_snd (pns : List String) (pn pp : String) (id0 : Nat)
    (v : String) (c : Value) (es : List ENode) :
    (generateForLoop pns pn pp id0 v c es).2 =
      ((generateLoopElements pns pn pp v (id0 + 1) es).2.1,
       id0 :: (generateLoopElements pns pn pp v (id0 + 1) es).2.2) := by
  simp only [generateForLoop]

/-- Counter/ids shape of `generateLoopElements` on `[]`. -/
theorem generateLoopElements_nil_snd (pns : List String) (pn pp vn : String) (id0 : Nat) :
    (generateLoopElements pns pn pp vn id0 []).2 = (id0, []) := by
  simp only [generateLoopElements]

/-- Counter/ids shape of `generateLoopElements` on a cons. -/
theorem generateLoopElements_cons_snd (pns : List String) (pn pp vn : String) (id0 : Nat)
    (e : ENode) (t : List ENode) :
    (generateLoopElements pns pn pp vn id0 (e :: t)).2 =
      ((generateLoopElements pns pn pp vn
          (generateElement pns pn pp id0 (replaceLoopVariable vn "__LOOP_VAR__" e)).2.1 t).2.1,
       (generateElement pns pn pp id0 (replaceLoopVariable vn "__LOOP_VAR__" e)).2.2 ++
       (generateLoopElements pns pn pp vn
          (generateElement pns pn pp id0 (replaceLoopVariable vn "__LOOP_VAR__" e)).2.1 t).2.2) := by
  simp only [generateLoopElements]

/-- Counter/ids shape of `generateChildren` on `[]`. -/
theorem generateChildren_nil_snd (pns : List String) (pn pp : String) (id0 : Nat) :
    (generateChildren pns pn pp id0 []).2 = (id0, []) := by
  simp only [generateChildren]

/-- Counter/ids shape of `generateChildren` on an element child. -/
theorem generateChildren_node_snd (pns : List String) (pn pp : String) (id0 : Nat)
    (e : ENode) (t : List Child) :
    (generateChildren pns pn pp id0 (Child.node e :: t)).2 =
      ((generateChildren pns pn pp (generateElement pns pn pp id0 e).2.1 t).2.1,
       (generateElement pns pn pp id0 e).2.2 ++
       (generateChildren pns pn pp (generateElement pns pn pp id0 e).2.1 t).2.2) := by
  simp only [generateChildren]

/-- Counter/ids shape of `generateChildren` on an if child with a nonempty
else branch: ids for the if block, the else block, the two branch bodies,
then the rest. -/
theorem generateChildren_if_pos_snd (pns : List String) (pn pp : String) (id0 : Nat)
    (cond : Value) (thenC : List ENode) (el : List ENode) (t : List Child)
    (hel : 0 < el.length) :
    (generateChildren pns pn pp id0 (Child.ifC cond thenC (some el) :: t)).2 =
      ((generateChildren pns pn pp
          (generateENodes pns pn pp
            (generateENodes pns pn pp (id0 + 2) thenC).2.1 el).2.1 t).2.1,
       id0 :: (id0 + 1) ::
         ((generateENodes pns pn pp (id0 + 2) thenC).2.2 ++
          (generateENodes pns pn pp
            (generateENodes pns pn pp (id0 + 2) thenC).2.1 el).2.2) ++
         (generateChildren pns pn pp
            (generateENodes pns pn pp
              (generateENodes pns pn pp (id0 + 2) thenC).2.1 el).2.1 t).2.2) := by
  simp only [generateChildren]
  rw [if_pos hel]

/-- Counter/ids shape of `generateChildren` on an if child with an empty
else list (no else block is allocated). -/
theorem generateChildren_if_zero_snd (pns : List String) (pn pp : String) (id0 : Nat)
    (cond : Value) (thenC : List ENode) (el : List ENode) (t : List Child)
    (hel : ¬ 0 < el.length) :
    (generateChildren pns pn pp id0 (Child.ifC cond thenC (some el) :: t)).2 =
      ((generateChildren pns pn pp
          (generateENodes pns pn pp (id0 + 1) thenC).2.1 t).2.1,
       id0 :: (generateENodes pns pn pp (id0 + 1) thenC).2.2 ++
         (generateChildren pns pn pp
            (generateENodes pns pn pp (id0 + 1) thenC).2.1 t).2.2) := by
  simp only [generateChildren]
  rw [if_neg hel]

/-- Counter/ids shape of `generateChildren` on an if child without an else
branch. -/
theorem generateChildren_if_none_snd (pns : List String) (pn pp : String) (id0 : Nat)
    (cond : Value) (thenC : List ENode) (t : List Child) :
    (generateChildren pns pn pp id0 (Child.ifC cond thenC none :: t)).2 =
      ((generateChildren pns pn pp
          (generateENodes pns pn pp (id0 + 1) thenC).2.1 t).2.1,
       id0 :: (generateENodes pns pn pp (id0 + 1) thenC).2.2 ++
         (generateChildren pns pn pp
            (generateENodes pns pn pp (id0 + 1) thenC).2.1 t).2.2) := by
  simp only [generateChildren]

/-- Counter/ids shape of `generateENodes` on `[]`. -/
theorem generateENodes_nil_snd (pns : List String) (pn pp : String) (id0 : Nat) :
    (generateENodes pns pn pp id0 []).2 = (id0, []) := by
  simp only [generateENodes]

/-- Counter/ids shape of `generateENodes` on a cons. -/
theorem generateENodes_cons_snd (pns : List String) (pn pp : String) (id0 : Nat)
    (e : ENode) (t : List ENode) :
    (generateENodes pns pn pp id0 (e :: t)).2 =
      ((generateENodes pns pn pp (generateElement pns pn pp id0 e).2.1 t).2.1,
       (generateElement pns pn pp id0 e).2.2 ++
       (generateENodes pns pn pp (generateElement pns pn pp id0 e).2.1 t).2.2) := by
  simp only [generateENodes]

/-- Every generator call consumes a consecutive block of ids starting at the
incoming counter value, by strong induction on the (doubled) skeleton
size. -/
theorem genIds_aux : ∀ n : Nat,
    (∀ (pns : List String) (pn pp : String) (id0 : Nat) (e : ENode),
       2 * esize e < n → IdsConsecutive id0 (generateElement pns pn pp id0 e)) ∧
    (∀ (pns : List String) (pn pp : String) (id0 : Nat) (vn : String) (c : Value)
       (es : List ENode), 2 * nsizeList es + 1 < n →
       IdsConsecutive id0 (generateForLoop pns pn pp id0 vn c es)) ∧
    (∀ (pns : List String) (pn pp vn : String) (id0 : Nat) (es : List ENode),
       2 * nsizeList es < n →
       IdsConsecutive id0 (generateLoopElements pns pn pp vn id0 es)) ∧
    (∀ (pns : List String) (pn pp : String) (id0 : Nat) (l : List Child),
       2 * csizeList l < n →
       IdsConsecutive id0 (generateChildren pns pn pp id0 l)) ∧
    (∀ (pns : List String) (pn pp : String) (id0 : Nat) (l : List ENode),
       2 * nsizeList l < n →
       IdsConsecutive id0 (generateENodes pns pn pp id0 l)) := by
  intro n
  induction n using Nat.strong_induction_on with
  | _ n ih =>
    refine ⟨?_, ?_, ?_, ?_, ?_⟩
    · intro pns pn pp id0 e he
      cases e with
      | elem name props children handlers =>
        have hsz : esize (ENode.elem name props children handlers) = 1 + csizeList children := rfl
        obtain ⟨k, h1, h2⟩ := (ih (2 * csizeList children + 1) (by omega)).2.2.2.1
          pns pn pp (id0 + 1) children (by omega)
        refine ⟨k + 1, ?_, ?_⟩
        · rw [generateElement_elem_snd]
          omega
        · rw [generateElement_elem_snd]
          rw [show ((generateChildren pns pn pp (id0 + 1) children).2.1,
              id0 :: (generateChildren pns pn pp (id0 + 1) children).2.2).2
              = id0 :: (generateChildren pns pn pp (id0 + 1) children).2.2 from rfl]
          rw [h2]
          rfl
      | forLoop v c es =>
        have hsz : esize (ENode.forLoop v c es) = 1 + nsizeList es := rfl
        obtain ⟨k, h1, h2⟩ := (ih (2 * nsizeList es + 2) (by omega)).2.1
          pns pn pp id0 v c es (by omega)
        exact ⟨k, by rw [generateElement_for_eq]; exact h1,
               by rw [generateElement_for_eq]; exact h2⟩
    · intro pns pn pp id0 vn c es hm
      obtain ⟨k, h1, h2⟩ := (ih (2 * nsizeList es + 1) (by omega)).2.2.1
        pns pn pp vn (id0 + 1) es (by omega)
      refine ⟨k + 1, ?_, ?_⟩
      · rw [generateForLoop_snd]
        omega
      · rw [generateForLoop_snd]
        rw [show ((generateLoopElements pns pn pp vn (id0 + 1) es).2.1,
            id0 :: (generateLoopElements pns pn pp vn (id0 + 1) es).2.2).2
            = id0 :: (generateLoopElements pns pn pp vn (id0 + 1) es).2.2 from rfl]
        rw [h2]
        rfl
    · intro pns pn pp vn id0 es hm
      cases es with
      | nil =>
        refine ⟨0, ?_, ?_⟩ <;> rw [generateLoopElements_nil_snd] <;> rfl
      | cons e t =>
        have hsz : nsizeList (e :: t) = 1 + esize e + nsizeList t := rfl
        obtain ⟨k1, e1, e2⟩ := (ih (2 * esize e + 1) (by omega)).1
          pns pn pp id0 (replaceLoopVariable vn "__LOOP_VAR__" e)
          (by rw [esize_replace]; omega)
        obtain ⟨k2, f1, f2⟩ := (ih (2 * nsizeList t + 1) (by omega)).2.2.1
          pns pn pp vn (id0 + k1) t (by omega)
        refine ⟨k1 + k2, ?_, ?_⟩
        · rw [generateLoopElements_cons_snd]
          rw [e1]
          omega
        · rw [generateLoopElements_cons_snd]
          rw [e1]
          rw [e2, f2, range1_append]
    · intro pns pn pp id0 l hm
      cases l with
      | nil =>
        refine ⟨0, ?_, ?_⟩ <;> rw [generateChildren_nil_snd] <;> rfl
      | cons c t =>
        cases c with
        | node e =>
          have hsz : csizeList (Child.node e :: t) = 1 + (1 + esize e) + csizeList t := rfl
          obtain ⟨k1, e1, e2⟩ := (ih (2 * esize e + 1) (by omega)).1 pns pn pp id0 e (by omega)
          obtain ⟨k2, f1, f2⟩ := (ih (2 * csizeList t + 1) (by omega)).2.2.2.1
            pns pn pp (id0 + k1) t (by omega)
          refine ⟨k1 + k2, ?_, ?_⟩
          · rw [generateChildren_node_snd]
            rw [e1]
            omega
          · rw [generateChildren_node_snd]
            rw [e1]
            rw [e2, f2, range1_append]
        | ifC cond thenC elseC =>
          cases elseC with
          | some el =>
            by_cases hel : 0 < el.length
            · have hsz : csizeList (Child.ifC cond thenC (some el) :: t)
                  = 1 + (1 + nsizeList thenC + nsizeList el) + csizeList t := rfl
              obtain ⟨kt, a1, a2⟩ := (ih (2 * nsizeList thenC + 1) (by omega)).2.2.2.2
                pns pn pp (id0 + 2) thenC (by omega)
              obtain ⟨ke, b1, b2⟩ := (ih (2 * nsizeList el + 1) (by omega)).2.2.2.2
                pns pn pp (id0 + 2 + kt) el (by omega)
              obtain ⟨kr, c1, c2⟩ := (ih (2 * csizeList t + 1) (by omega)).2.2.2.1
                pns pn pp (id0 + 2 + kt + ke) t (by omega)
              refine ⟨kt + ke + kr + 2, ?_, ?_⟩
              · rw [generateChildren_if_pos_snd pns pn pp id0 cond thenC el t hel]
                rw [a1]
                rw [b1]
                omega
              · rw [generateChildren_if_pos_snd pns pn pp id0 cond thenC el t hel]
                rw [a1]
                rw [b1]
                rw [a2, b2, c2, range1_append]
                rw [show id0 :: (id0 + 1) :: List.range' (id0 + 2) (kt + ke)
                    = List.range' id0 (kt + ke + 2) from rfl]
                rw [show id0 + 2 + kt + ke = id0 + (kt + ke + 2) from by omega]
                rw [range1_append]
                show List.range' id0 (kt + ke + 2 + kr) = List.range' id0 (kt + ke + kr + 2)
                congr 1
                omega
            · have hsz : csizeList (Child.ifC cond thenC (some el) :: t)
                  = 1 + (1 + nsizeList thenC + nsizeList el) + csizeList t := rfl
              obtain ⟨kt, a1, a2⟩ := (ih (2 * nsizeList thenC + 1) (by omega)).2.2.2.2
                pns pn pp (id0 + 1) thenC (by omega)
              obtain ⟨kr, c1, c2⟩ := (ih (2 * csizeList t + 1) (by omega)).2.2.2.1
                pns pn pp (id0 + 1 + kt) t (by omega)
              refine ⟨kt + kr + 1, ?_, ?_⟩
              · rw [generateChildren_if_zero_snd pns pn pp id0 cond thenC el t hel]
                rw [a1]
                omega
              · rw [generateChildren_if_zero_snd pns pn pp id0 cond thenC el t hel]
                rw [a1]
                rw [a2, c2]
                rw [show id0 :: List.range' (id0 + 1) kt = List.range' id0 (kt + 1) from rfl]
                rw [show id0 + 1 + kt = id0 + (kt + 1) from by omega]
                rw [range1_append]
                show List.range' id0 (kt + 1 + kr) = List.range' id0 (kt + kr + 1)
                congr 1
                omega
          | none =>
            have hsz : csizeList (Child.ifC cond thenC none :: t)
                = 1 + (1 + nsizeList thenC + 0) + csizeList t := rfl
            obtain ⟨kt, a1, a2⟩ := (ih (2 * nsizeList thenC + 1) (by omega)).2.2.2.2
              pns pn pp (id0 + 1) thenC (by omega)
            obtain ⟨kr, c1, c2⟩ := (ih (2 * csizeList t + 1) (by omega)).2.2.2.1
              pns pn pp (id0 + 1 + kt) t (by omega)
            refine ⟨kt + kr + 1, ?_, ?_⟩
            · rw [generateChildren_if_none_snd]
              rw [a1]
              omega
            · rw [generateChildren_if_none_snd]
              rw [a1]
              rw [a2, c2]
              rw [show id0 :: List.range' (id0 + 1) kt = List.range' id0 (kt + 1) from rfl]
              rw [show id0 + 1 + kt = id0 + (kt + 1) from by omega]
              rw [range1_append]
              show List.range' id0 (kt + 1 + kr) = List.range' id0 (kt + kr + 1)
              congr 1
              omega
    · intro pns pn pp id0 l hm
      cases l with
      | nil =>
        refine ⟨0, ?_, ?_⟩ <;> rw [generateENodes_nil_snd] <;> rfl
      | cons e t =>
        have hsz : nsizeList (e :: t) = 1 + esize e + nsizeList t := rfl
        obtain ⟨k1, e1, e2⟩ := (ih (2 * esize e + 1) (by omega)).1 pns pn pp id0 e (by omega)
        obtain ⟨k2, f1, f2⟩ := (ih (2 * nsizeList t + 1) (by omega)).2.2.2.2
          pns pn pp (id0 + k1) t (by omega)
        refine ⟨k1 + k2, ?_, ?_⟩
        · rw [generateENodes_cons_snd]
          rw [e1]
          omega
        · rw [generateENodes_cons_snd]
          rw [e1]
          rw [e2, f2, range1_append]

/-- Counter/ids shape of `pageItemsGo` on `[]`. -/
theorem pageItemsGo_nil_snd (pns : List String) (pn pp : String) (id0 : Nat) :
    (pageItemsGo pns pn pp id0 []).2 = (id0, []) := by
  simp only [pageItemsGo]

/-- Counter/ids shape of `pageItemsGo` on a swipe handler (no ids). -/
theorem pageItemsGo_swipe_snd (pns : List String) (pn pp : String) (id0 : Nat)
    (d : String) (a : List PslAction) (t : List PageItem) :
    (pageItemsGo pns pn pp id0 (PageItem.swipe d a :: t)).2 =
      (pageItemsGo pns pn pp id0 t).2 := by
  simp only [pageItemsGo]

/-- Counter/ids shape of `pageItemsGo` on an element entry. -/
theorem pageItemsGo_node_snd (pns : List String) (pn pp : String) (id0 : Nat)
    (e : ENode) (t : List PageItem) :
    (pageItemsGo pns pn pp id0 (PageItem.node e :: t)).2 =
      ((pageItemsGo pns pn pp (generateElement pns pn pp id0 e).2.1 t).2.1,
       (generateElement pns pn pp id0 e).2.2 ++
       (pageItemsGo pns pn pp (generateElement pns pn pp id0 e).2.1 t).2.2) := by
  simp only [pageItemsGo]

/-- The per-page item loop also consumes a consecutive id block. -/
theorem pageItemsGo_ids (pns : List String) (pn pp : String) :
    ∀ (items : List PageItem) (id0 : Nat),
      IdsConsecutive id0 (pageItemsGo pns pn pp id0 items)
  | [], id0 => ⟨0, by rw [pageItemsGo_nil_snd] <;> rfl, by rw [pageItemsGo_nil_snd] <;> rfl⟩
  | .swipe d a :: t, id0 => by
    obtain ⟨k, h1, h2⟩ := pageItemsGo_ids pns pn pp t id0
    refine ⟨k, ?_, ?_⟩
    · rw [show (pageItemsGo pns pn pp id0 (PageItem.swipe d a :: t)).2.1
          = (pageItemsGo pns pn pp id0 t).2.1 from congrArg Prod.fst
            (pageItemsGo_swipe_snd pns pn pp id0 d a t)]
      exact h1
    · rw [show (pageItemsGo pns pn pp id0 (PageItem.swipe d a :: t)).2.2
          = (pageItemsGo pns pn pp id0 t).2.2 from congrArg Prod.snd
            (pageItemsGo_swipe_snd pns pn pp id0 d a t)]
      exact h2
  | .node e :: t, id0 => by
    obtain ⟨k1, e1, e2⟩ := (genIds_aux (2 * esize e + 1)).1 pns pn pp id0 e (by omega)
    obtain ⟨k2, f1, f2⟩ := pageItemsGo_ids pns pn pp t (id0 + k1)
    refine ⟨k1 + k2, ?_, ?_⟩
    · rw [pageItemsGo_node_snd]
      rw [e1]
      omega
    · rw [pageItemsGo_node_snd]
      rw [e1]
      rw [e2, f2, range1_append]

/-- Counter/ids shape of `generatePagesGo` on `[]`. -/
theorem generatePagesGo_nil_snd (pns : List String) (first : String) (id0 : Nat) :
    (generatePagesGo pns first id0 []).2 = (id0, []) := by
  simp only [generatePagesGo]

/-- Counter/ids shape of `generatePagesGo` on a cons. -/
theorem generatePagesGo_cons_snd (pns : List String) (first : String) (id0 : Nat)
    (nm : String) (pg : Page) (rest : List (String × Page)) :
    (generatePagesGo pns first id0 ((nm, pg) :: rest)).2 =
      ((generatePagesGo pns first
          (pageItemsGo pns nm (pagePadOf pg) id0 pg.elements).2.1 rest).2.1,
       (pageItemsGo pns nm (pagePadOf pg) id0 pg.elements).2.2 ++
       (generatePagesGo pns first
          (pageItemsGo pns nm (pagePadOf pg) id0 pg.elements).2.1 rest).2.2) := by
  simp only [generatePagesGo]

/-- The whole page loop consumes a consecutive id block. -/
theorem generatePagesGo_ids (pns : List String) (first : String) :
    ∀ (pages : List (String × Page)) (id0 : Nat),
      IdsConsecutive id0 (generatePagesGo pns first id0 pages)
  | [], id0 => ⟨0, by rw [generatePagesGo_nil_snd] <;> rfl, by rw [generatePagesGo_nil_snd] <;> rfl⟩
  | (nm, pg) :: rest, id0 => by
    obtain ⟨k1, e1, e2⟩ := pageItemsGo_ids pns nm (pagePadOf pg) pg.elements id0
    obtain ⟨k2, f1, f2⟩ := generatePagesGo_ids pns first rest (id0 + k1)
    refine ⟨k1 + k2, ?_, ?_⟩
    · rw [generatePagesGo_cons_snd]
      rw [e1]
      omega
    · rw [generatePagesGo_cons_snd]
      rw [e1]
      rw [e2, f2, range1_append]

/-- `generatePages` unfolded to the page loop. -/
theorem generatePages_eq (ast : Program) (id0 : Nat) :
    generatePages ast id0 =
      generatePagesGo (ast.pages.map Prod.fst) ((ast.pages.map Prod.fst).headD "")
        id0 ast.pages := by
  simp only [generatePages]


/-- Everything `htmlDocument` places before the page markup. -/
def htmlDocPre (titleStr css : String) : String :=
  "<!DOCTYPE html>\n<html lang=\"fr\">\n<head>\n    <meta charset=\"UTF-8\">\n    <meta name=\"viewport\" content=\"width=device-width, initial-scale=1.0, maximum-scale=1.0, user-scalable=no\">\n    <meta name=\"theme-color\" content=\"#2196F3\">\n    <title>"
    ++ titleStr ++ "</title>\n    <script>\n        window.psl_vars = \x7b\x7d;\n        window.psl_elements = \x7b\x7d;\n        window.psl_watchers = [];\n        window.psl_intervals = [];\n    </script>\n    <style>\n        * \x7b margin: 0; padding: 0; box-sizing: border-box; \x7d\n        body \x7b font-family: Arial, sans-serif; \x7d\n        [data-page] \x7b display: none; \x7d\n        [data-page].active \x7b display: block; \x7d\n        "
    ++ css ++ "\n    </style>\n</head>\n<body>\n    <div id=\"app\">\n        "

/-- Everything `htmlDocument` places after the page markup. -/
def htmlDocPost (js swBase64 : String) : String :=
  "\n    </div>\n    <script>\n        "
    ++ js ++ "\n        // Prevent pinch zoom\n        document.addEventListener('gesturestart', function(e) \x7b\n            e.preventDefault();\n        \x7d);\n        document.addEventListener('gesturechange', function(e) \x7b\n            e.preventDefault();\n        \x7d);\n        document.addEventListener('gestureend', function(e) \x7b\n            e.preventDefault();\n        \x7d);\n        // Prevent double-tap zoom\n        let lastTouchEnd = 0;\n        document.addEventListener('touchend', function(e) \x7b\n            const now = Date.now();\n            if (now - lastTouchEnd <= 300) \x7b\n                e.preventDefault();\n            \x7d\n            lastTouchEnd = now;\n        \x7d, false);\n        // Prevent image dragging\n        document.addEventListener('DOMContentLoaded', function() \x7b\n            document.querySelectorAll('img').forEach(function(img) \x7b\n                img.setAttribute('draggable', 'false');\n                img.addEventListener('dragstart', function(e) \x7b\n                    e.preventDefault();\n                    return false;\n                \x7d);\n                img.addEventListener('mousedown', function(e) \x7b\n                    e.preventDefault();\n                \x7d);\n            \x7d);\n        \x7d);\n        // Prevent dragging for dynamically added images\n        const observer = new MutationObserver(function(mutations) \x7b\n            mutations.forEach(function(mutation) \x7b\n                mutation.addedNodes.forEach(function(node) \x7b\n                    if (node.tagName === 'IMG') \x7b\n                        node.setAttribute('draggable', 'false');\n                        node.addEventListener('dragstart', function(e) \x7b\n                            e.preventDefault();\n                            return false;\n                        \x7d);\n                        node.addEventListener('mousedown', function(e) \x7b\n                            e.preventDefault();\n                        \x7d);\n                    \x7d\n                    if (node.querySelectorAll) \x7b\n                        node.querySelectorAll('img').forEach(function(img) \x7b\n                            img.setAttribute('draggable', 'false');\n                            img.addEventListener('dragstart', function(e) \x7b\n                                e.preventDefault();\n                                return false;\n                            \x7d);\n                            img.addEventListener('mousedown', function(e) \x7b\n                                e.preventDefault();\n                            \x7d);\n                        \x7d);\n                    \x7d\n                \x7d);\n            \x7d);\n        \x7d);\n        observer.observe(document.body, \x7b childList: true, subtree: true \x7d);\n        \n        // Swipe detection\n        window.setupSwipeDetection = function() \x7b\n            let touchStartX = 0;\n            let touchStartY = 0;\n            let touchEndX = 0;\n            let touchEndY = 0;\n            const minSwipeDistance = 50;\n            \n            document.addEventListener('touchstart', function(e) \x7b\n                touchStartX = e.changedTouches[0].screenX;\n                touchStartY = e.changedTouches[0].screenY;\n            \x7d, false);\n            \n            document.addEventListener('touchend', function(e) \x7b\n                touchEndX = e.changedTouches[0].screenX;\n                touchEndY = e.changedTouches[0].screenY;\n                handleSwipe();\n            \x7d, false);\n            \n            function handleSwipe() \x7b\n                const deltaX = touchEndX - touchStartX;\n                const deltaY = touchEndY - touchStartY;\n                \n                if (Math.abs(deltaX) > Math.abs(deltaY) && Math.abs(deltaX) > minSwipeDistance) \x7b\n                    if (deltaX > 0) \x7b\n                        window.dispatchEvent(new CustomEvent('psl-swipe-right'));\n                    \x7d else \x7b\n                        window.dispatchEvent(new CustomEvent('psl-swipe-left'));\n                    \x7d\n                \x7d else if (Math.abs(deltaY) > minSwipeDistance) \x7b\n                    if (deltaY > 0) \x7b\n                        window.dispatchEvent(new CustomEvent('psl-swipe-down'));\n                    \x7d else \x7b\n                        window.dispatchEvent(new CustomEvent('psl-swipe-up'));\n                    \x7d\n                \x7d\n            \x7d\n        \x7d;\n        window.setupSwipeDetection();\n        \n        // Notification support\n        window.notify = function(message, duration = 3000) \x7b\n            if ('Notification' in window && Notification.permission === 'granted') \x7b\n                new Notification(message);\n            \x7d else if ('Notification' in window && Notification.permission !== 'denied') \x7b\n                Notification.requestPermission().then(function(permission) \x7b\n                    if (permission === 'granted') \x7b\n                        new Notification(message);\n                    \x7d else \x7b\n                        showToast(message, duration);\n                    \x7d\n                \x7d);\n            \x7d else \x7b\n                showToast(message, duration);\n            \x7d\n        \x7d;\n        \n        function showToast(message, duration) \x7b\n            const toast = document.createElement('div');\n            toast.textContent = message;\n            toast.style.cssText = 'position:fixed;bottom:20px;left:50%;transform:translateX(-50%);background:#333;color:white;padding:12px 24px;border-radius:4px;z-index:10000;';\n            document.body.appendChild(toast);\n            setTimeout(() => toast.remove(), duration);\n        \x7d\n        \n        // LocalStorage helpers\n        window.save = function(key, value) \x7b\n            try \x7b\n                localStorage.setItem(key, JSON.stringify(value));\n            \x7d catch(e) \x7b\n                console.error('LocalStorage save error:', e);\n            \x7d\n        \x7d;\n        \n        window.load = function(key, defaultValue = null) \x7b\n            try \x7b\n                const item = localStorage.getItem(key);\n                return item ? JSON.parse(item) : defaultValue;\n            \x7d catch(e) \x7b\n                console.error('LocalStorage load error:', e);\n                return defaultValue;\n            \x7d\n        \x7d;\n        \n        if ('serviceWorker' in navigator && location.protocol === 'https:') \x7b\n            navigator.serviceWorker.register(\n                'data:application/javascript;base64,"
    ++ swBase64 ++ "',\n                \x7b scope: '/' \x7d\n            ).catch(e => console.log('SW error:', e));\n        \x7d\n    </script>\n</body>\n</html>"

/-- `htmlDocument` splits as the prefix, the page markup, and the suffix. -/
theorem htmlDocument_split (titleStr css pages js swBase64 : String) :
    htmlDocument titleStr css pages js swBase64 =
      htmlDocPre titleStr css ++ pages ++ htmlDocPost js swBase64 := by
  simp only [htmlDocument, htmlDocPre, htmlDocPost, String.append_assoc]


/-- A digit character is not an ASCII uppercase letter. -/
theorem digit_not_upper (c : Char) (h : c.isDigit = true) :
    (('A' ≤ c && c ≤ 'Z') = false) := by
  simp only [Char.isDigit, Bool.and_eq_true, decide_eq_true_eq] at h
  obtain ⟨h1, h2⟩ := h
  simp only [Bool.and_eq_false_iff]
  left
  simp only [decide_eq_false_iff_not]
  intro hA
  rw [Char.le_def] at hA
  exact absurd (UInt32.le_trans hA h2) (by decide)

/-- `toLowerCase` fixes digits and the decimal point. -/
theorem jsLowerChar_digitdot (c : Char) (h : isDigitDot c = true) :
    jsLowerChar c = c := by
  simp only [isDigitDot, Bool.or_eq_true, decide_eq_true_eq] at h
  rcases h with hd | hdot
  · simp [jsLowerChar, digit_not_upper c hd]
  · subst hdot
    decide

/-- A digit or decimal point never matches (case-insensitively) the first
character of one of the thirteen unit alternatives. -/
theorem charCI_digitdot_head (c p : Char) (hc : isDigitDot c = true)
    (hp : p ∈ ['p', 'v', '%', 'e', 'r', 'c', 'm', 'i']) : charCI c p = false := by
  have hl := jsLowerChar_digitdot c hc
  fin_cases hp <;>
    (simp only [charCI, hl, decide_eq_false_iff_not]
     intro he
     rw [he] at hc
     exact absurd hc (by decide))

/-- Every unit alternative starts with one of eight characters. -/
theorem cssUnits13_head (u : String) (hu : u ∈ cssUnits13) :
    ∃ p rest, u.data = p :: rest ∧ p ∈ ['p', 'v', '%', 'e', 'r', 'c', 'm', 'i'] := by
  fin_cases hu <;> exact ⟨_, _, rfl, by decide⟩

/-- A string matching `^\d+\.?\d*$` consists of digits and points only. -/
theorem numFullMatch_mem (l : List Char) (h : numFullMatch l = true) :
    ∀ c ∈ l, isDigitDot c = true := by
  intro c hc
  simp only [numFullMatch, List.any_eq_true, List.mem_range] at h
  obtain ⟨k, hk, hcond⟩ := h
  simp only [Bool.and_eq_true, decide_eq_true_eq] at hcond
  obtain ⟨⟨hk0, htake⟩, hrest⟩ := hcond
  rw [← List.take_append_drop k l] at hc
  rcases List.mem_append.mp hc with h1 | h2
  · have := List.all_eq_true.mp htake c h1
    simp [isDigitDot, this]
  · rw [Bool.or_eq_true] at hrest
    rcases hrest with he | hcons
    · rw [List.isEmpty_eq_true.mp he] at h2
      cases h2
    · rw [Bool.and_eq_true] at hcons
      obtain ⟨hhead, htail⟩ := hcons
      cases hdk : l.drop k with
      | nil =>
        rw [hdk] at hhead
        simp at hhead
      | cons d r =>
        rw [hdk] at hhead htail h2
        simp only [List.head?_cons, beq_iff_eq, Option.some.injEq] at hhead
        rcases List.mem_cons.mp h2 with rfl | hmem
        · simp [isDigitDot, hhead]
        · have := List.all_eq_true.mp htail c (by simpa using hmem)
          simp [isDigitDot, this]

/-- A `^\d+\.?\d*$` match makes the unit-suffix regex fail at every start
position: the first pattern character after the digits would have to be a
unit letter or `%`. -/
theorem unitSuffixAtHead_false (t : List Char) (hall : ∀ c ∈ t, isDigitDot c = true) :
    unitSuffixAtHead t = false := by
  simp only [unitSuffixAtHead, List.any_eq_false]
  intro u hu
  simp only [Bool.not_eq_true, List.any_eq_false, List.mem_range]
  intro i hi
  obtain ⟨p, rest, hud, hp⟩ := cssUnits13_head u hu
  rw [hud]
  cases hdd : t.drop i with
  | nil => simp [ciPrefixL]
  | cons c cs =>
    have hcm : c ∈ t := by
      have h1 : c ∈ t.drop i := by
        rw [hdd]
        exact List.mem_cons_self c cs
      exact List.drop_subset i t h1
    have := charCI_digitdot_head c p (hall c hcm) hp
    simp [ciPrefixL, this]

/-- On a full numeric match the whole unit regex search fails. -/
theorem numFullMatch_no_unit (l : List Char) (h : numFullMatch l = true) :
    cssUnitRegexTest l = false := by
  have hall := numFullMatch_mem l h
  simp only [cssUnitRegexTest, List.any_eq_false, List.mem_range]
  intro j hj
  simp [unitSuffixAtHead_false (l.drop j)
    (fun c hc => hall c (List.drop_subset j l hc))]

/-- A full numeric match contains no percent sign. -/
theorem numFullMatch_no_pct (l : List Char) (h : numFullMatch l = true) :
    l.contains '%' = false := by
  by_contra hc
  rw [Bool.not_eq_false] at hc
  have hm : '%' ∈ l := by
    simpa using hc
  exact absurd (numFullMatch_mem l h '%' hm) (by decide)

/-- Digits are not JS whitespace. -/
theorem digit_not_space (c : Char) (h : c.isDigit = true) : jsIsSpace c = false := by
  simp only [Char.isDigit, Bool.and_eq_true, decide_eq_true_eq] at h
  obtain ⟨h1, h2⟩ := h
  simp only [jsIsSpace, Bool.or_eq_false_iff, decide_eq_false_iff_not]
  refine ⟨⟨⟨⟨⟨⟨?_, ?_⟩, ?_⟩, ?_⟩, ?_⟩, ?_⟩, ?_⟩ <;>
    (intro he; subst he; first
      | exact absurd h1 (by decide)
      | exact absurd h2 (by decide))

/-- A full numeric match starts with a digit. -/
theorem numFullMatch_head (l : List Char) (h : numFullMatch l = true) :
    ∃ c t, l = c :: t ∧ c.isDigit = true := by
  simp only [numFullMatch, List.any_eq_true, List.mem_range] at h
  obtain ⟨k, hk, hcond⟩ := h
  simp only [Bool.and_eq_true, decide_eq_true_eq] at hcond
  obtain ⟨⟨hk0, htake⟩, _⟩ := hcond
  cases l with
  | nil =>
    simp at hk
    omega
  | cons c t =>
    refine ⟨c, t, rfl, ?_⟩
    have hmem : c ∈ (c :: t).take k := by
      cases k with
      | zero => omega
      | succ k2 => simp [List.take_succ_cons]
    exact List.all_eq_true.mp htake c hmem

/-- A full numeric match is not NaN under `parseFloat`. -/
theorem numFullMatch_parseFloat (l : List Char) (h : numFullMatch l = true) :
    jsParseFloatIsNaN l = false := by
  obtain ⟨c, t, hl, hcd⟩ := numFullMatch_head l h
  subst hl
  have hplus : c ≠ '+' := by
    intro he
    subst he
    simp [Char.isDigit] at hcd
  have hminus : c ≠ '-' := by
    intro he
    subst he
    simp [Char.isDigit] at hcd
  simp only [jsParseFloatIsNaN]
  rw [List.dropWhile_cons, digit_not_space c hcd]
  simp [hplus, hminus, hcd]

/-- A numeral followed directly by a unit alternative satisfies the
unit-suffix regex search. -/
theorem num_unit_regex (nd : List Char) (u : String) (hn : numFullMatch nd = true)
    (hu : u ∈ cssUnits13) : cssUnitRegexTest (nd ++ u.data) = true := by
  simp only [cssUnitRegexTest, List.any_eq_true, List.mem_range]
  refine ⟨0, by omega, ?_⟩
  rw [List.drop_zero]
  simp only [unitSuffixAtHead, List.any_eq_true, List.mem_range]
  refine ⟨u, hu, nd.length, by simp only [List.length_append]; omega, ?_⟩
  simp only [Bool.and_eq_true]
  refine ⟨⟨?_, ?_⟩, ?_⟩
  · rw [List.take_left]
    exact hn
  · rw [List.drop_left]
    exact ciPrefixL_self u.data
  · have hde : (nd ++ u.data).drop (nd.length + u.length) = [] := by
      apply List.drop_eq_nil_of_le
      simp only [List.length_append]
      have hu2 : u.length = u.data.length := rfl
      omega
    rw [hde]
    rfl

end PSLCompiler

-- ## Helper lemmas

/-- The block-comment scanner never lengthens the remaining input. -/
theorem skipBlockCommentAux_le : ∀ l : List Char, (PSLTokenizer.skipBlockCommentAux l).length ≤ l.length
  | [] => Nat.le_refl _
  | [_] => Nat.le_refl _
  | a :: b :: t => by
    show (if a = '*' && b = '/' then t else PSLTokenizer.skipBlockCommentAux (b :: t)).length ≤ _
    split
    · simp only [List.length_cons]
      omega
    · have := skipBlockCommentAux_le (b :: t)
      simp only [List.length_cons] at *
      omega

/-- The string scanner never lengthens the remaining input. -/
theorem readStringAux_le (q : Char) : ∀ l : List Char, (PSLTokenizer.readStringAux q l).2.length ≤ l.length
  | [] => Nat.le_refl _
  | c :: t => by
    rw [PSLTokenizer.readStringAux.eq_def]
    split
    · rename_i heq
      exact absurd heq (by simp)
    · rename_i e t2 heq
      injection heq with h1 h2
      subst h1
      subst h2
      split
      · simp
      · split
        · cases t with
          | nil => simp
          | cons e2 t3 =>
            have := readStringAux_le q t3
            simp only [List.length_cons]
            simp at this ⊢
            omega
        · have := readStringAux_le q t
          simp only [List.length_cons]
          simp at this ⊢
          omega

/-- One tokenizer step consumes at least the current character. -/
theorem step_le (c : Char) (t : List Char) : (PSLTokenizer.step c t).2.length ≤ t.length := by
  unfold PSLTokenizer.step
  split
  · next t2 =>
    rw [List.dropWhile_cons_of_pos (by decide), List.dropWhile_cons_of_pos (by decide)]
    have := len_dropWhile_le (fun a => a ≠ '\n') t2
    simp only [List.length_cons]
    omega
  · next t2 =>
    have := skipBlockCommentAux_le t2
    simp only [List.length_cons]
    omega
  · simp
  · simp
  · simp
  · simp
  · split
    · simp
    · split
      · simp
      · split
        · rename_i hident
          show (List.dropWhile isIdentChar (c :: t)).length ≤ t.length
          rw [List.dropWhile_cons_of_pos (by simp [isIdentChar, hident])]
          exact len_dropWhile_le isIdentChar t
        · split
          · rename_i hdig
            show (PSLTokenizer.readNumber (c :: t)).2.length ≤ t.length
            have hpos : isDigitDot c = true := by simp [isDigitDot, hdig]
            simp only [PSLTokenizer.readNumber]
            split
            · show (List.dropWhile isUnitChar (List.dropWhile isDigitDot (c :: t))).length ≤ t.length
              rw [List.dropWhile_cons_of_pos hpos]
              have h1 := len_dropWhile_le isDigitDot t
              have h2 := len_dropWhile_le isUnitChar (List.dropWhile isDigitDot t)
              omega
            · show (List.dropWhile isDigitDot (c :: t)).length ≤ t.length
              rw [List.dropWhile_cons_of_pos hpos]
              exact len_dropWhile_le isDigitDot t
          · split
            · exact readStringAux_le c t
            · split
              · simp
              · simp

/-- The tokenizer loop is fuel-independent once the fuel exceeds the input
length: this is the termination content of `tokenize` (every loop iteration
consumes at least one character of the remaining input). -/
theorem tokenizeGo_fuel (f g : Nat) (cs : List Char) (hf : cs.length < f) (hg : cs.length < g) :
    PSLTokenizer.tokenizeGo f cs = PSLTokenizer.tokenizeGo g cs := by
  match f, g with
  | f' + 1, g' + 1 =>
    simp only [PSLTokenizer.tokenizeGo]
    cases hdw : cs.dropWhile jsIsSpace with
    | nil => rfl
    | cons c t =>
      have hlen : t.length + 1 ≤ cs.length := by
        have h1 := len_dropWhile_le jsIsSpace cs
        rw [hdw] at h1
        simpa using h1
      have hrest := step_le c t
      cases hstep : PSLTokenizer.step c t with
      | mk o rest =>
        rw [hstep] at hrest
        show (match PSLTokenizer.step c t with
              | (some tok, rest) => tok :: PSLTokenizer.tokenizeGo f' rest
              | (none, rest) => PSLTokenizer.tokenizeGo f' rest) =
            (match PSLTokenizer.step c t with
              | (some tok, rest) => tok :: PSLTokenizer.tokenizeGo g' rest
              | (none, rest) => PSLTokenizer.tokenizeGo g' rest)
        rw [hstep]
        simp only at hrest
        cases o with
        | some tok =>
          show tok :: PSLTokenizer.tokenizeGo f' rest = tok :: PSLTokenizer.tokenizeGo g' rest
          rw [tokenizeGo_fuel f' g' rest (by omega) (by omega)]
        | none =>
          show PSLTokenizer.tokenizeGo f' rest = PSLTokenizer.tokenizeGo g' rest
          rw [tokenizeGo_fuel f' g' rest (by omega) (by omega)]
termination_by f

/-- Greedy scanning over a list that starts with characters satisfying `p`
and continues with one that does not: the scan takes exactly the first part. -/
theorem span_append (p : Char → Bool) :
    ∀ (l1 l2 : List Char), (∀ c ∈ l1, p c = true) →
      (∀ c, l2.head? = some c → p c = false) →
      (l1 ++ l2).takeWhile p = l1 ∧ (l1 ++ l2).dropWhile p = l2
  | [], l2, _, h2 => by
    cases l2 with
    | nil => simp
    | cons c t =>
      have := h2 c rfl
      simp [List.takeWhile_cons, List.dropWhile_cons, this]
  | a :: l1, l2, h1, h2 => by
    have ha : p a = true := h1 a (by simp)
    have ih := span_append p l1 l2 (fun c hc => h1 c (by simp [hc])) h2
    simp [List.takeWhile_cons, List.dropWhile_cons, ha, ih.1, ih.2]

-- ## Claim theorems: tokenizer

/-- C1.  The lexer is total: the scan loop's value is independent of the fuel
once the fuel exceeds the input length (each iteration consumes at least one
character, so the loop terminates; no branch of `tokenize` throws), and for
every input the returned token sequence is nonempty with the end-of-input
token (type EOF) as its last element. -/
theorem tokenize_total_ends_with_eof :
    ∀ (cs : List Char) (extra : Nat),
      PSLTokenizer.tokenizeGo (cs.length + 1 + extra) cs = PSLTokenizer.tokenizeGo (cs.length + 1) cs
      ∧ (PSLTokenizer.tokenize cs).getLast? = some eofToken
      ∧ PSLTokenizer.tokenize cs ≠ [] := by
  intro cs extra
  refine ⟨tokenizeGo_fuel _ _ cs (by omega) (by omega), ?_, by simp [PSLTokenizer.tokenize]⟩
  unfold PSLTokenizer.tokenize
  exact List.getLast?_concat _

/-- C3.  Number lexing: digits and decimal points are read greedily; the
following run of unit characters is appended to the literal exactly when its
lowercase form is in the fixed allow-list (or is `%`), and otherwise those
characters are not consumed.  The hypotheses describe the shape of the input
at a number: a nonempty run of `[\d.]` characters, then a run of `[a-zA-Z%]`
unit characters, then input that continues with neither class.  In
particular (proved end to end below in the witness and in
`tokenize_number_examples`) `"10px"` lexes as one NUMBER token `10px` and
`"10xyz"` as NUMBER `10` followed by IDENTIFIER `xyz`. -/
theorem readNumber_greedy_units (ds us rest : List Char)
    (hne : ds ≠ [])
    (hds : ∀ c ∈ ds, isDigitDot c = true)
    (hus : ∀ c ∈ us, isUnitChar c = true ∧ isDigitDot c = false)
    (hrest : ∀ c, rest.head? = some c → isUnitChar c = false ∧ isDigitDot c = false) :
    PSLTokenizer.readNumber (ds ++ us ++ rest) =
      (if PSLTokenizer.validUnits.contains (lowerStr ⟨us⟩) || (⟨us⟩ : String) = "%" then
        (⟨"NUMBER", (⟨ds⟩ : String) ++ (⟨us⟩ : String)⟩, rest)
      else
        (⟨"NUMBER", ⟨ds⟩⟩, us ++ rest)) ∧
    PSLTokenizer.tokenizeStr "10px" = [⟨"NUMBER", "10px"⟩, eofToken] ∧
    PSLTokenizer.tokenizeStr "10xyz" = [⟨"NUMBER", "10"⟩, ⟨"IDENTIFIER", "xyz"⟩, eofToken] := by
  refine ⟨?_, by decide, by decide⟩
  have hsplit1 : (ds ++ (us ++ rest)).takeWhile isDigitDot = ds ∧
      (ds ++ (us ++ rest)).dropWhile isDigitDot = us ++ rest := by
    refine span_append isDigitDot ds (us ++ rest) hds ?_
    intro c hc
    cases us with
    | nil => exact (hrest c (by simpa using hc)).2
    | cons u ut =>
      simp only [List.cons_append, List.head?_cons, Option.some.injEq] at hc
      subst hc
      exact (hus u (by simp)).2
  have hsplit2 : (us ++ rest).takeWhile isUnitChar = us ∧
      (us ++ rest).dropWhile isUnitChar = rest := by
    refine span_append isUnitChar us rest (fun c hc => (hus c hc).1) ?_
    intro c hc
    exact (hrest c hc).1
  unfold PSLTokenizer.readNumber
  simp only [List.append_assoc, hsplit1.1, hsplit1.2, hsplit2.1, hsplit2.2]

/-- Witness for C3: instantiating `readNumber_greedy_units` at the input
`"10" ++ "px"` (empty rest) discharges every hypothesis and yields the single
NUMBER token `10px` with nothing left to scan. -/
theorem readNumber_greedy_units_witness :
    ("10".data ≠ [] ∧ (∀ c ∈ "10".data, isDigitDot c = true) ∧
      (∀ c ∈ "px".data, isUnitChar c = true ∧ isDigitDot c = false)) ∧
    (PSLTokenizer.readNumber ("10".data ++ "px".data ++ []) =
      (if PSLTokenizer.validUnits.contains (lowerStr ⟨"px".data⟩) || (⟨"px".data⟩ : String) = "%" then
        (⟨"NUMBER", (⟨"10".data⟩ : String) ++ (⟨"px".data⟩ : String)⟩, [])
      else
        (⟨"NUMBER", ⟨"10".data⟩⟩, "px".data ++ [])) ∧
    PSLTokenizer.tokenizeStr "10px" = [⟨"NUMBER", "10px"⟩, eofToken] ∧
    PSLTokenizer.tokenizeStr "10xyz" = [⟨"NUMBER", "10"⟩, ⟨"IDENTIFIER", "xyz"⟩, eofToken]) :=
  ⟨⟨by decide, by decide, by decide⟩,
    readNumber_greedy_units "10".data "px".data [] (by decide) (by decide) (by decide)
      (by simp)⟩

/-- C4 (the code's behaviour at the failing input).  An unterminated block
comment does not consume to the end of input: `skipBlockComment`'s loop runs
only while `pos < input.length - 1`, so the final character of the input is
left unread and is then tokenized.  On `"/*a"` the lexer emits an IDENTIFIER
token `a` before the EOF marker, where the claim requires no token after the
opener. -/
theorem unterminated_block_comment_emits_last_char :
    PSLTokenizer.tokenizeStr "/*a" = [⟨"IDENTIFIER", "a"⟩, eofToken] ∧
    PSLTokenizer.tokenizeStr "/* abc" = [⟨"IDENTIFIER", "c"⟩, eofToken] ∧
    PSLTokenizer.tokenizeStr "/*" = [eofToken] := by
  refine ⟨by decide, by decide, by decide⟩

-- ## Claim theorems: parser

/-- Bool-to-Prop bridge for `expect`'s value check: the JS truthiness guard
`value && token.value !== value` holds exactly when a nonempty value string
is required and differs from the found one. -/
theorem expect_value_guard (value : Option String) (tv : String) :
    (PSLParser.jsTruthyOptStr value && tv != value.getD "") = true ↔
      ∃ s, value = some s ∧ s ≠ "" ∧ tv ≠ s := by
  cases value with
  | none => simp [PSLParser.jsTruthyOptStr]
  | some s =>
    simp only [PSLParser.jsTruthyOptStr, Option.getD_some, Bool.and_eq_true, bne_iff_ne,
      decide_eq_true_eq]
    constructor
    · rintro ⟨h1, h2⟩
      exact ⟨s, rfl, h1, h2⟩
    · rintro ⟨s', hs', h1, h2⟩
      cases hs'
      exact ⟨h1, h2⟩

/-- C8 (amended).  `expect` raises an error iff the current token's type
differs from the required one, or a *nonempty* specific value is required and
the token's value differs (an empty-string required value is skipped by JS
truthiness); the raised error is always the message carrying the expected
token, the found token's type and value, and the position; on a match it
consumes the token (position advances by one) and returns it. -/
theorem expect_error_iff_mismatch (tokens : List Token) (pos : Nat) (ty : String) (value : Option String) :
    (PSLParser.expect tokens pos ty value = .ok (PSLParser.peekT tokens pos, pos + 1) ↔
      ((PSLParser.peekT tokens pos).type = ty ∧
        ∀ s, value = some s → s ≠ "" → (PSLParser.peekT tokens pos).value = s)) ∧
    (PSLParser.expect tokens pos ty value =
        .error (PSLParser.expectMsg ty value (PSLParser.peekT tokens pos) pos) ↔
      ((PSLParser.peekT tokens pos).type ≠ ty ∨
        ∃ s, value = some s ∧ s ≠ "" ∧ (PSLParser.peekT tokens pos).value ≠ s)) ∧
    (∀ e, PSLParser.expect tokens pos ty value = .error e →
      e = PSLParser.expectMsg ty value (PSLParser.peekT tokens pos) pos) := by
  set token := PSLParser.peekT tokens pos with htok
  have hcond : ((token.type != ty) || (PSLParser.jsTruthyOptStr value && token.value != value.getD "")) = true ↔
      (token.type ≠ ty ∨ ∃ s, value = some s ∧ s ≠ "" ∧ token.value ≠ s) := by
    rw [Bool.or_eq_true, bne_iff_ne, expect_value_guard]
  by_cases h : ((token.type != ty) || (PSLParser.jsTruthyOptStr value && token.value != value.getD "")) = true
  · have hout : PSLParser.expect tokens pos ty value = .error (PSLParser.expectMsg ty value token pos) := by
      simp only [PSLParser.expect, ← htok]
      rw [if_pos h]
    refine ⟨?_, ?_, ?_⟩
    · rw [hout]
      simp only [reduceCtorEq, false_iff, not_and]
      intro hty hall
      rcases hcond.mp h with hne | ⟨s, hs, hsne, hvne⟩
      · exact hne hty
      · exact hvne (hall s hs hsne)
    · rw [hout]
      simp only [Except.error.injEq, true_iff]
      exact hcond.mp h
    · intro e he
      rw [hout] at he
      cases he
      rfl
  · have hout : PSLParser.expect tokens pos ty value = .ok (token, pos + 1) := by
      simp only [PSLParser.expect, ← htok]
      rw [if_neg h]
    have hnot := (not_iff_not.mpr hcond).mp h
    push_neg at hnot
    refine ⟨?_, ?_, ?_⟩
    · rw [hout]
      simp only [Except.ok.injEq, true_iff]
      refine ⟨hnot.1, ?_⟩
      intro s hs hsne
      have := hnot.2 s hs hsne
      exact this
    · rw [hout]
      simp only [reduceCtorEq, false_iff]
      push_neg
      exact hnot
    · intro e he
      rw [hout] at he
      cases he

/-- Counterexample to C8 as stated: requiring the specific value `""` (the
empty string) for a SYMBOL token whose value is `";"` does NOT raise an
error — JS truthiness short-circuits `value && token.value !== value` — even
though the found value `";"` differs from the required value `""`; the token
is consumed and returned instead. -/
theorem expect_empty_value_counterexample :
    PSLParser.expect [⟨"SYMBOL", ";"⟩] 0 "SYMBOL" (some "") = .ok (⟨"SYMBOL", ";"⟩, 1) ∧
    (";" : String) ≠ "" :=
  ⟨rfl, by decide⟩

/-- C9 (amended).  On an identifier token (whose value is a lexer identifier,
hence not `[` or an opening brace): `true`/`false` parse as booleans; an
identifier immediately followed by a dot parses as a dotted reference
(regardless of whether it is a colour/position word); otherwise the
identifier is reinterpreted as a string literal exactly when it starts with
`#` (hex colour shape), is a known CSS colour name, or is a position
keyword, and parses as a variable reference in every remaining case. -/
theorem parsePrimary_identifier_spec (fuel pos : Nat) (ts : List Token) (v : String)
    (htok : PSLParser.peekT ts pos = ⟨"IDENTIFIER", v⟩)
    (hnotbr : v ≠ "[" ∧ v ≠ "\x7b") :
    ((v = "true" ∨ v = "false") →
      PSLParser.parsePrimary (fuel + 1) ts pos = .ok (.boolean (v = "true"), pos + 1)) ∧
    (v ≠ "true" → v ≠ "false" → (PSLParser.peekT ts (pos + 1)).value = "." →
      (PSLParser.peekT ts (pos + 2)).type = "IDENTIFIER" →
      PSLParser.parsePrimary (fuel + 1) ts pos =
        .ok (.dotNotation v (PSLParser.peekT ts (pos + 2)).value, pos + 3)) ∧
    (v ≠ "true" → v ≠ "false" → (PSLParser.peekT ts (pos + 1)).value ≠ "." →
      PSLParser.parsePrimary (fuel + 1) ts pos =
        .ok (if strStartsWith v "#" || PSLParser.isColorName v || PSLParser.isPositionKeyword v then
              Value.string v else Value.var v, pos + 1)) ∧
    (v ≠ "true" → v ≠ "false" → (PSLParser.peekT ts (pos + 1)).value ≠ "." →
      (PSLParser.parsePrimary (fuel + 1) ts pos = .ok (Value.string v, pos + 1) ↔
        (strStartsWith v "#" || PSLParser.isColorName v || PSLParser.isPositionKeyword v) = true)) := by
  have hstep : PSLParser.parsePrimary (fuel + 1) ts pos =
      (if v = "true" || v = "false" then Except.ok (.boolean (v = "true"), pos + 1)
      else if (PSLParser.peekT ts (pos + 1)).value = "." then do
        let (ptok, p2) ← PSLParser.expect ts (pos + 2) "IDENTIFIER" none
        Except.ok (.dotNotation v ptok.value, p2)
      else if strStartsWith v "#" || PSLParser.isColorName v || PSLParser.isPositionKeyword v then
        Except.ok (.string v, pos + 1)
      else
        Except.ok (.var v, pos + 1)) := by
    simp only [PSLParser.parsePrimary, htok]
    rw [if_neg (by decide), if_neg (by decide), if_neg (by simpa using hnotbr.1),
      if_neg (by simp [hnotbr.2]), if_pos (by trivial)]
  refine ⟨?_, ?_, ?_, ?_⟩
  · intro hv
    rw [hstep, if_pos (by rcases hv with h | h <;> simp [h])]
  · intro h1 h2 hdot hid
    have hexp : PSLParser.expect ts (pos + 2) "IDENTIFIER" none =
        .ok (PSLParser.peekT ts (pos + 2), pos + 3) := by
      simp [PSLParser.expect, PSLParser.jsTruthyOptStr, hid]
    rw [hstep, if_neg (by simp [h1, h2]), if_pos hdot, hexp]
    rfl
  · intro h1 h2 hdot
    rw [hstep, if_neg (by simp [h1, h2]), if_neg hdot]
    split <;> rfl
  · intro h1 h2 hdot
    rw [hstep, if_neg (by simp [h1, h2]), if_neg hdot]
    by_cases hc : (strStartsWith v "#" || PSLParser.isColorName v || PSLParser.isPositionKeyword v) = true
    · rw [if_pos hc]
      simp [hc]
    · rw [if_neg hc]
      simp [hc]

/-- Witness for C9: instantiating `parsePrimary_identifier_spec` at the
one-token stream holding the identifier `red` (a colour name, not followed by
a dot) discharges the hypotheses; the third conjunct then gives the string
reinterpretation at this concrete input. -/
theorem parsePrimary_identifier_spec_witness :
    (PSLParser.peekT [⟨"IDENTIFIER", "red"⟩] 0 = ⟨"IDENTIFIER", "red"⟩ ∧
      ("red" : String) ≠ "[" ∧ ("red" : String) ≠ "\x7b") ∧
    ((("red" : String) = "true" ∨ ("red" : String) = "false") →
      PSLParser.parsePrimary (0 + 1) [⟨"IDENTIFIER", "red"⟩] 0 =
        .ok (.boolean ("red" = "true"), 0 + 1)) ∧
    (("red" : String) ≠ "true" → ("red" : String) ≠ "false" →
      (PSLParser.peekT [⟨"IDENTIFIER", "red"⟩] (0 + 1)).value = "." →
      (PSLParser.peekT [⟨"IDENTIFIER", "red"⟩] (0 + 2)).type = "IDENTIFIER" →
      PSLParser.parsePrimary (0 + 1) [⟨"IDENTIFIER", "red"⟩] 0 =
        .ok (.dotNotation "red" (PSLParser.peekT [⟨"IDENTIFIER", "red"⟩] (0 + 2)).value, 0 + 3)) ∧
    (("red" : String) ≠ "true" → ("red" : String) ≠ "false" →
      (PSLParser.peekT [⟨"IDENTIFIER", "red"⟩] (0 + 1)).value ≠ "." →
      PSLParser.parsePrimary (0 + 1) [⟨"IDENTIFIER", "red"⟩] 0 =
        .ok (if strStartsWith "red" "#" || PSLParser.isColorName "red" || PSLParser.isPositionKeyword "red" then
              Value.string "red" else Value.var "red", 0 + 1)) ∧
    (("red" : String) ≠ "true" → ("red" : String) ≠ "false" →
      (PSLParser.peekT [⟨"IDENTIFIER", "red"⟩] (0 + 1)).value ≠ "." →
      (PSLParser.parsePrimary (0 + 1) [⟨"IDENTIFIER", "red"⟩] 0 = .ok (Value.string "red", 0 + 1) ↔
        (strStartsWith "red" "#" || PSLParser.isColorName "red" || PSLParser.isPositionKeyword "red") = true)) :=
  ⟨⟨rfl, by decide, by decide⟩,
    parsePrimary_identifier_spec 0 0 [⟨"IDENTIFIER", "red"⟩] "red" rfl ⟨by decide, by decide⟩⟩

/-- Counterexample to C9 as stated: the identifier `red` is a known CSS
colour name and is not `true`/`false`, yet when it is followed by a dot the
parser produces a dotted reference, not the string literal the claim's
"exactly when" requires. -/
theorem parsePrimary_color_dot_counterexample :
    PSLParser.isColorName "red" = true ∧
    PSLParser.parsePrimary 1 [⟨"IDENTIFIER", "red"⟩, ⟨"SYMBOL", "."⟩, ⟨"IDENTIFIER", "x"⟩] 0 =
      .ok (Value.dotNotation "red" "x", 3) ∧
    PSLParser.parsePrimary 1 [⟨"IDENTIFIER", "red"⟩, ⟨"SYMBOL", "."⟩, ⟨"IDENTIFIER", "x"⟩] 0 ≠
      .ok (Value.string "red", 1) :=
  ⟨by decide, rfl, by
    intro h
    rw [show PSLParser.parsePrimary 1 [⟨"IDENTIFIER", "red"⟩, ⟨"SYMBOL", "."⟩, ⟨"IDENTIFIER", "x"⟩] 0 =
        .ok (Value.dotNotation "red" "x", 3) from rfl] at h
    simp at h⟩

/-- **C7.** For a bare (non-dotted) assignment action, `actionToJS` emits
straight-line code whose first statement writes the value into the global
store `window.psl_vars` and whose second statement fires
`window.psl_triggerWatchers` for that name — the store write precedes the
trigger call, so watchers registered on the name run after the mutation.
(The generated code is sequential JS, so textual order is execution
order.) -/
theorem bare_assignment_store_before_trigger (pageNames : List String) (key : String)
    (v : Value) (elementId : String) (hkey : strHasChar key '.' = false) :
    PSLCompiler.actionToJS pageNames (.assignment key v) elementId =
      "\n          window.psl_vars." ++ key ++ " = " ++ PSLCompiler.valueToJSString v ++
        ";\n          window.psl_triggerWatchers('" ++ key ++ "');\n        " := by
  simp only [PSLCompiler.actionToJS, hkey, Bool.false_eq_true, if_false,
    PSLCompiler.bareAssignJS]

/-- Witness for C7 at the spec's example `x = 10`. -/
theorem bare_assignment_store_before_trigger_witness :
    strHasChar "x" '.' = false ∧
    PSLCompiler.actionToJS [] (.assignment "x" (.number "10")) "global" =
      "\n          window.psl_vars." ++ "x" ++ " = " ++
        PSLCompiler.valueToJSString (.number "10") ++
        ";\n          window.psl_triggerWatchers('" ++ "x" ++ "');\n        " :=
  ⟨by decide, bare_assignment_store_before_trigger [] "x" (.number "10") "global" (by decide)⟩

/-- **C10.** The JS serialization of a string expression is a double-quoted
literal in which exactly the embedded double quotes are backslash-escaped:
every other character — including backslashes and newlines — passes through
verbatim (first conjunct, the per-character image; second conjunct, a
quote-free string is emitted unchanged even when it contains `\` or a
newline; third conjunct, a concrete example with a backslash, a newline and
a quote). -/
theorem valueToJSString_escapes_only_quotes (s : String) :
    (PSLCompiler.valueToJSString (.string s) =
      "\"" ++ (⟨(s.data.map fun c => if c = '"' then ['\\', '"'] else [c]).flatten⟩ : String)
        ++ "\"") ∧
    (s.data.contains '"' = false →
      PSLCompiler.valueToJSString (.string s) = "\"" ++ s ++ "\"") ∧
    PSLCompiler.valueToJSString (.string "a\\b\nc\"d") = "\"a\\b\nc\\\"d\"" := by
  refine ⟨?_, ?_, by decide⟩
  · simp only [PSLCompiler.valueToJSString, PSLCompiler.replaceCharAll_eq_flatten]
  · intro h
    simp only [PSLCompiler.valueToJSString, PSLCompiler.replaceCharAll_id '"' _ s.data h]

/-- Concrete program for the C6 witness: two pages, the first holding one
`title` element. -/
def pageC6a : Page :=
  ⟨[.node (.elem "title" [("text", .string "Hi")] [] [])], none, none⟩

/-- Second (inactive) page of the C6 witness program. -/
def pageC6b : Page := ⟨[], none, none⟩

/-- The C6 witness program. -/
def astC6 : Program := { pages := [("home", pageC6a), ("about", pageC6b)] }

/-- **C6.** With at least one declared page (and page names unique, as JS
object keys are), `generatePages` emits one container per page in
declaration order; the first declared page's container carries the active
marker (`true` in `pageOpenHTML`, which renders `class="page active"`) and
every later page's container carries the inactive opener (`false`, rendering
`class="page "`). -/
theorem generatePages_first_active (ast : Program) (first : String) (fp : Page)
    (rest : List (String × Page))
    (hp : ast.pages = (first, fp) :: rest)
    (hnd : ∀ nm ∈ rest.map Prod.fst, nm ≠ first) :
    ∃ firstBody : String, ∃ bodies : List String, bodies.length = rest.length ∧
      (PSLCompiler.generatePages ast 0).1 =
        PSLCompiler.pageOpenHTML first (PSLCompiler.pagePadOf fp)
            (PSLCompiler.pageBgOf fp) true
          ++ firstBody ++ "</div>" ++
          strConcat (List.zipWith
            (fun pg b => PSLCompiler.pageOpenHTML pg.1 (PSLCompiler.pagePadOf pg.2)
              (PSLCompiler.pageBgOf pg.2) false ++ b ++ "</div>") rest bodies) := by
  simp only [PSLCompiler.generatePages, hp, List.map_cons, List.headD_cons]
  obtain ⟨bodies, hlen, hrest⟩ := PSLCompiler.generatePagesGo_all_inactive
    (first :: rest.map Prod.fst) first rest
    (PSLCompiler.pageItemsGo (first :: rest.map Prod.fst) first
      (PSLCompiler.pagePadOf fp) 0 fp.elements).2.1 hnd
  refine ⟨joinSep "\n" (PSLCompiler.pageItemsGo (first :: rest.map Prod.fst) first
    (PSLCompiler.pagePadOf fp) 0 fp.elements).1, bodies, hlen, ?_⟩
  simp only [PSLCompiler.generatePagesGo]
  rw [beq_self_eq_true]
  rw [hrest]

/-- Witness for C6: the two-page program `astC6` (`home` with a title, then
`about`). -/
theorem generatePages_first_active_witness :
    astC6.pages = ("home", pageC6a) :: [("about", pageC6b)] ∧
    (∀ nm ∈ [("about", pageC6b)].map Prod.fst, nm ≠ "home") ∧
    (∃ firstBody : String, ∃ bodies : List String,
      bodies.length = [("about", pageC6b)].length ∧
      (PSLCompiler.generatePages astC6 0).1 =
        PSLCompiler.pageOpenHTML "home" (PSLCompiler.pagePadOf pageC6a)
            (PSLCompiler.pageBgOf pageC6a) true
          ++ firstBody ++ "</div>" ++
          strConcat (List.zipWith
            (fun pg b => PSLCompiler.pageOpenHTML pg.1 (PSLCompiler.pagePadOf pg.2)
              (PSLCompiler.pageBgOf pg.2) false ++ b ++ "</div>")
            [("about", pageC6b)] bodies)) :=
  ⟨rfl, by decide,
    generatePages_first_active astC6 "home" pageC6a [("about", pageC6b)] rfl (by decide)⟩

/-- **C2.** The compiler is deterministic (it is a pure function of the AST:
a fresh run on an identical `Program` yields the identical output string,
first conjunct), the page markup it splices into the document is produced by
the id-assigning traversal started at counter 0 (second conjunct), and that
traversal hands out exactly the ids `0, 1, ..., final-1` in allocation
order — the allocation order is the pre-order walk of the page element
trees by construction — so the identifiers are unique and strictly
increasing (remaining conjuncts). -/
theorem compile_deterministic_unique_ids (ast : Program) :
    PSLCompiler.compile ast = PSLCompiler.compile ast ∧
    (∃ pre post : String, PSLCompiler.compile ast =
        pre ++ (PSLCompiler.generatePages ast 0).1 ++ post) ∧
    (PSLCompiler.generatePages ast 0).2.2 =
      List.range' 0 (PSLCompiler.generatePages ast 0).2.1 ∧
    List.Pairwise (· < ·) (PSLCompiler.generatePages ast 0).2.2 ∧
    ((PSLCompiler.generatePages ast 0).2.2).Nodup := by
  obtain ⟨k, h1, h2⟩ := PSLCompiler.generatePagesGo_ids (ast.pages.map Prod.fst)
    ((ast.pages.map Prod.fst).headD "") ast.pages 0
  have hpg := PSLCompiler.generatePages_eq ast 0
  have hids : (PSLCompiler.generatePages ast 0).2.2 = List.range' 0 k := by
    rw [hpg]; exact h2
  have hnext : (PSLCompiler.generatePages ast 0).2.1 = k := by
    rw [hpg, h1]; omega
  refine ⟨rfl, ?_, ?_, ?_, ?_⟩
  · simp only [PSLCompiler.compile, PSLCompiler.generateHTML]
    exact ⟨_, _, PSLCompiler.htmlDocument_split _ _ _ _ _⟩
  · rw [hids, hnext]
  · rw [hids]
    exact List.pairwise_lt_range' 0 k 1 (by omega)
  · rw [hids]
    exact (List.pairwise_lt_range' 0 k 1 (by omega)).imp fun h => Nat.ne_of_lt h

/-- **C5.** For every sizing key (`getStyleValue` applies unit defaulting to
width, height, size, border-size, padding, margin, gap, radius): a trimmed
purely numeric value gets `px` appended (first conjunct), while a numeral
already carrying one of the thirteen recognized unit suffixes — `%`
included — passes through unchanged (second conjunct); concretely
`width: 100` becomes the declaration value `100px` and `width: 50%` stays
`50%` (third and fourth conjuncts), and the element-property pass emits the
style declaration `width: <getStyleValue result>` for a `width` property
(fifth conjunct). -/
theorem getStyleValue_px_defaulting (key n u : String)
    (hk : PSLCompiler.sizingKeys.contains key = true)
    (hnum : PSLCompiler.numFullMatch n.data = true)
    (hu : u ∈ PSLCompiler.cssUnits13)
    (htrim : jsTrim n = n) (htrimu : jsTrim (n ++ u) = n ++ u) :
    PSLCompiler.getStyleValue key n = n ++ "px" ∧
    PSLCompiler.getStyleValue key (n ++ u) = n ++ u ∧
    PSLCompiler.getStyleValue "width" "100" = "100px" ∧
    PSLCompiler.getStyleValue "width" "50%" = "50%" ∧
    (∀ (props : List (String × Value)) (flags : PSLCompiler.ElemFlags)
       (tp rp bp lp : String) (st : PSLCompiler.PropsOut) (v : Value),
      (PSLCompiler.propsStep props flags tp rp bp lp st ("width", v)).styles
        = st.styles ++ ["width: " ++ PSLCompiler.getStyleValue "width"
            (PSLCompiler.valueToString v)]) := by
  refine ⟨?_, ?_, by decide, by decide, ?_⟩
  · simp only [PSLCompiler.getStyleValue, hk, if_true, htrim,
      PSLCompiler.numFullMatch_no_unit n.data hnum, strHasChar,
      PSLCompiler.numFullMatch_no_pct n.data hnum,
      PSLCompiler.numFullMatch_parseFloat n.data hnum, hnum,
      Bool.or_self, Bool.false_eq_true, if_false, Bool.not_false,
      Bool.and_self, Bool.and_true, Bool.true_and]
  · have hdata : (n ++ u).data = n.data ++ u.data := by
      simp
    simp only [PSLCompiler.getStyleValue, hk, if_true, htrimu, hdata,
      PSLCompiler.num_unit_regex n.data u hnum hu, Bool.true_or, if_true]
  · intro props flags tp rp bp lp st v
    simp [PSLCompiler.propsStep]

/-- Witness for C5 at the spec's examples (`width`, numeral `50`, unit `%`). -/
theorem getStyleValue_px_defaulting_witness :
    PSLCompiler.sizingKeys.contains "width" = true ∧
    PSLCompiler.numFullMatch "50".data = true ∧
    "%" ∈ PSLCompiler.cssUnits13 ∧
    jsTrim "50" = "50" ∧
    jsTrim ("50" ++ "%") = "50" ++ "%" ∧
    (PSLCompiler.getStyleValue "width" "50" = "50" ++ "px" ∧
     PSLCompiler.getStyleValue "width" ("50" ++ "%") = "50" ++ "%" ∧
     PSLCompiler.getStyleValue "width" "100" = "100px" ∧
     PSLCompiler.getStyleValue "width" "50%" = "50%" ∧
     (∀ (props : List (String × Value)) (flags : PSLCompiler.ElemFlags)
        (tp rp bp lp : String) (st : PSLCompiler.PropsOut) (v : Value),
       (PSLCompiler.propsStep props flags tp rp bp lp st ("width", v)).styles
         = st.styles ++ ["width: " ++ PSLCompiler.getStyleValue "width"
             (PSLCompiler.valueToString v)])) :=
  ⟨by decide, by decide, by decide, by decide, by decide,
   getStyleValue_px_defaulting "width" "50" "%" (by decide) (by decide) (by decide)
     (by decide) (by decide)⟩
